import Mathlib

/-!
Verification development for the wave-downtime-tracker chat server
(`src/chat-server.js`).  The server's in-memory state (identity registry,
session-token index, device codes, ban sets, presence maps, message log)
and its socket event handlers are shallowly embedded below.  JS `Map`s are
modelled as insertion-ordered association lists (`alSet` replaces in place,
`alGet` finds the first matching key), JS `Set`s as duplicate-free lists in
insertion order, JS strings as Lean strings (`.length` is modelled as the
UTF-16 unit count where the code reads `.length`), and the sources of
nondeterminism (uuid, token and device-code generation, `Date.now()`) are
passed into each event as explicit oracle arguments.  A thrown JS
`TypeError` is modelled by the `threw` flag of a step result.
-/

set_option maxRecDepth 20000

/-- JS whitespace as used by `String.prototype.trim` and `\s`. -/
def isJsSpaceChar (c : Char) : Bool :=
  c = ' ' || c = '\t' || c = '\n' || c = '\r' || c.toNat = 11 || c.toNat = 12 ||
  c.toNat = 0xA0 || c.toNat = 0x1680 || (0x2000 ≤ c.toNat && c.toNat ≤ 0x200A) ||
  c.toNat = 0x2028 || c.toNat = 0x2029 || c.toNat = 0x202F || c.toNat = 0x205F ||
  c.toNat = 0x3000 || c.toNat = 0xFEFF

/-- JS `String.prototype.trim`. -/
def jsTrim (s : String) : String :=
  String.mk (((s.data.dropWhile isJsSpaceChar).reverse.dropWhile isJsSpaceChar).reverse)

/-- JS `String.prototype.length` (UTF-16 code units). -/
def utf16Len (s : String) : Nat :=
  s.data.foldl (fun n c => n + (if 0x10000 ≤ c.toNat then 2 else 1)) 0

/-- JS `toUpperCase` restricted to ASCII (all strings the handlers compare
are ASCII-validated first). -/
def asciiUpper (s : String) : String := String.mk (s.data.map Char.toUpper)

/-- JS `toLowerCase` restricted to ASCII. -/
def asciiLower (s : String) : String := String.mk (s.data.map Char.toLower)

/-- A JS value as far as the handlers inspect payloads: strings, numbers,
booleans, `null`, `undefined`, and objects (of which only the
`sessionToken` field is ever read, by the `rejoin` handler). -/
inductive JSValue where
  | str (s : String)
  | num (n : Int)
  | boolv (b : Bool)
  | nullv
  | undef
  | objEmpty
  | objTok (v : JSValue)
deriving DecidableEq, Repr

/-- JS truthiness. -/
def jsTruthy : JSValue → Bool
  | .str s => s ≠ ""
  | .num n => n ≠ 0
  | .boolv b => b
  | .nullv => false
  | .undef => false
  | .objEmpty => true
  | .objTok _ => true

/-- Property read `userData.sessionToken`; only called on truthy values
(short-circuit in the handler), where JS property access cannot throw. -/
def jsSessionTokenField : JSValue → JSValue
  | .objTok v => v
  | _ => (JSValue.undef : JSValue)

/-- A registered identity, as stored in `registeredUsers`. -/
structure RegUser where
  id : String
  nickname : String
  avatarHue : Nat
  isAdmin : Bool
  ip : String
  sessionToken : String
  deviceCode : Option String
deriving DecidableEq, Repr

/-- A live attributed connection, as stored in `users` (keyed by socket id). -/
structure ActiveUser where
  id : String
  nickname : String
  socketId : Nat
  avatarHue : Nat
  joinedAt : Int
  isAdmin : Bool
  ip : String
deriving DecidableEq, Repr

/-- A chat message as stored in the `messages` log. -/
structure Message where
  id : String
  userId : String
  nickname : String
  avatarHue : Nat
  message : String
  timestamp : Int
deriving DecidableEq, Repr

/-- `MESSAGE_RETENTION_TIME = 24 * 60 * 60 * 1000`. -/
def RETENTION : Int := 24 * 60 * 60 * 1000

/-- Association-list lookup: JS `Map.prototype.get` (first entry with the
key; keys are unique by construction). -/
def alGet {α β : Type} [DecidableEq α] (l : List (α × β)) (k : α) : Option β :=
  (l.find? (fun p => p.1 = k)).map (fun p => p.2)

/-- JS `Map.prototype.has`. -/
def alHas {α β : Type} [DecidableEq α] (l : List (α × β)) (k : α) : Bool :=
  l.any (fun p => p.1 = k)

/-- JS `Map.prototype.set`: replace in place if the key is present,
otherwise append (JS `Map` preserves insertion order). -/
def alSet {α β : Type} [DecidableEq α] (l : List (α × β)) (k : α) (v : β) :
    List (α × β) :=
  if l.any (fun p => p.1 = k) then
    l.map (fun p => if p.1 = k then (k, v) else p)
  else l ++ [(k, v)]

/-- JS `Map.prototype.delete`. -/
def alDel {α β : Type} [DecidableEq α] (l : List (α × β)) (k : α) :
    List (α × β) :=
  l.filter (fun p => ¬ p.1 = k)

/-- JS `Set.prototype.add` (no-op on duplicates, insertion order kept). -/
def setAdd {α : Type} [DecidableEq α] (l : List α) (a : α) : List α :=
  if l.contains a then l else l ++ [a]

/-- JS `Set.prototype.delete`. -/
def setDel {α : Type} [DecidableEq α] (l : List α) (a : α) : List α :=
  l.filter (fun x => ¬ x = a)

/-- The whole in-memory server state (the module-level `Map`s/`Set`s of
`chat-server.js`, plus the per-socket attributes `socket.userId`,
`socket.clientFingerprint`, and the `clientIP` captured at connect). -/
structure ServerState where
  users : List (Nat × ActiveUser) := []
  userSessions : List (String × List Nat) := []
  registeredUsers : List (String × RegUser) := []
  sessionTokens : List (String × String) := []
  messages : List Message := []
  bannedUsers : List String := []
  bannedNicknames : List String := []
  bannedIPs : List String := []
  bannedFingerprints : List String := []
  userFingerprints : List (String × String) := []
  userLastMessages : List (String × String) := []
  adminId : Option String := none
  allConnections : List Nat := []
  socketUserId : List (Nat × String) := []
  socketFingerprint : List (Nat × String) := []
  socketIp : List (Nat × String) := []
deriving DecidableEq, Repr

def initialState : ServerState := {}

/-- `validateSessionToken` on an actual string argument. -/
def validateSessionTokenStr (sessionToken : String) (st : ServerState) :
    Option RegUser :=
  if sessionToken = "" then none
  else
    match alGet st.sessionTokens sessionToken with
    | none => none
    | some userId =>
      match alGet st.registeredUsers userId with
      | none => none
      | some user => if user.sessionToken = sessionToken then some user else none

/-- `validateSessionToken` on an arbitrary JS value (`typeof` check). -/
def jsValidateSessionToken (v : JSValue) (st : ServerState) : Option RegUser :=
  match v with
  | .str s => validateSessionTokenStr s st
  | _ => none

/-- `validateDeviceCode`: linear scan over `registeredUsers` in insertion
order, returning the first identity whose `deviceCode` equals the input. -/
def validateDeviceCode (deviceCode : String) (st : ServerState) :
    Option RegUser :=
  if deviceCode = "" then none
  else
    (st.registeredUsers.find? (fun p => p.2.deviceCode = some deviceCode)).map
      (fun p => p.2)

/-- `isNicknameAvailable` (always called with `excludeUserId = null`). -/
def isNicknameAvailable (nickname : String) (st : ServerState) : Bool :=
  let lower := asciiLower nickname
  if st.bannedNicknames.contains lower then false
  else ¬ st.registeredUsers.any (fun p => asciiLower p.2.nickname = lower)

/-- Collision check of `generateUniqueDeviceCode`:
`Array.from(registeredUsers.values()).some(user => user.deviceCode === code)`. -/
def deviceCodeTaken (regs : List RegUser) (code : String) : Bool :=
  regs.any (fun u => u.deviceCode = some code)

/-- The retry loop of `generateUniqueDeviceCode`.  `draw i` is the string
returned by the `i`-th call of `generateDeviceCode()`; the fuel counts the
remaining collision-checked attempts (100 at the top).  When the fuel runs
out (`attempts > 100`), the loop makes one more discarded draw and builds
the fallback `generateDeviceCode() + generateDeviceCode().substring(0, 2)`. -/
def genDeviceCodeAux (draw : Nat → String) (regs : List RegUser) :
    Nat → Nat → String
  | i, 0 => draw (i + 1) ++ String.mk ((draw (i + 2)).data.take 2)
  | i, fuel + 1 =>
    let code := draw i
    if deviceCodeTaken regs code then genDeviceCodeAux draw regs (i + 1) fuel
    else code

/-- `generateUniqueDeviceCode`: up to 100 collision-checked 4-character
draws, then the longer fallback. -/
def generateUniqueDeviceCode (draw : Nat → String) (regs : List RegUser) :
    String :=
  genDeviceCodeAux draw regs 0 100

example : generateUniqueDeviceCode (fun _ => "ABCD") [] = "ABCD" := by decide

/-- A server-to-client emission (the payload fields the handlers fill in). -/
inductive EmitMsg where
  | onlineCount (n : Nat)
  | sessionValid (userId nickname : String) (avatarHue : Nat) (isAdmin : Bool)
      (sessionToken : String)
  | invalidSession
  | banned
  | errorMsg (message : String)
  | nicknameAccepted (userId nickname : String) (avatarHue : Nat)
      (isAdmin : Bool) (deviceCode : Option String) (sessionToken : String)
      (isRejoin isDeviceLogin : Bool)
  | messageHistory (msgs : List Message)
  | userJoined (nickname : String) (onlineCount : Nat)
  | userLeft (nickname : String) (onlineCount : Nat) (banned : Bool)
  | chatMessage (m : Message)
  | messageDeleted (id : String)
  | deviceCodeGenerated (code : String)
  | deviceCodeDeleted
deriving DecidableEq, Repr

/-- An observable action of a handler: a targeted emit, a broadcast
(`io.emit`), or a forced disconnect (`socket.disconnect(true)`). -/
inductive Out where
  | emitTo (sock : Nat) (msg : EmitMsg)
  | broadcast (msg : EmitMsg)
  | disconnectSock (sock : Nat)
deriving DecidableEq, Repr

/-- Result of running one event handler: the new state, the emitted
actions in order, and whether a JS exception escaped the handler
(no handler has a try/catch). -/
structure StepResult where
  state : ServerState
  out : List Out
  threw : Bool
deriving DecidableEq, Repr

/-- Literal match of `pat` at position `i` of `cs`. -/
def matchLit (cs : List Char) (i : Nat) (pat : List Char) : Bool :=
  (cs.drop i).take pat.length = pat

/-- `[^\s]` has at least one match starting at position `i`. -/
def nonSpaceAt (cs : List Char) (i : Nat) : Bool :=
  match cs.drop i with
  | [] => false
  | c :: _ => ¬ isJsSpaceChar c

/-- `[a-zA-Z0-9-]` of the bare-domain alternative. -/
def isDomainChar (c : Char) : Bool := c.isAlpha || c.isDigit || c = '-'

/-- The TLD alternation of the url regex. -/
def tldList : List (List Char) :=
  ["com", "ru", "net", "org", "io", "gg", "xyz", "me", "co", "uk", "us", "tv",
   "yt", "cc", "link", "site", "online", "store", "app", "dev", "tech"].map
    String.data

/-- The bare-domain alternative `[a-zA-Z0-9-]+\.(com|ru|...)[^\s]*` matches
starting from some run ending at position `i` (existence of a match is
equivalent to one domain character, a dot, then a TLD literal). -/
def bareDomainAt (cs : List Char) (i : Nat) : Bool :=
  match cs.drop i with
  | c :: d :: rest =>
    isDomainChar c && d = '.' && tldList.any (fun t => rest.take t.length = t)
  | _ => false

/-- Some alternative of the url regex matches at position `i`. -/
def urlAt (cs : List Char) (i : Nat) : Bool :=
  (matchLit cs i "http://".data && nonSpaceAt cs (i + 7)) ||
  (matchLit cs i "https://".data && nonSpaceAt cs (i + 8)) ||
  (matchLit cs i "www.".data && nonSpaceAt cs (i + 4)) ||
  bareDomainAt cs i

/-- `urlRegex.test(trimmedMessage)`: the link gate. -/
def containsUrl (s : String) : Bool :=
  (List.range s.data.length).any (fun i => urlAt s.data i)

/-- `\w` of the mention regex. -/
def isWordChar (c : Char) : Bool := c.isAlpha || c.isDigit || c = '_'

/-- `/@\w+/.test(trimmedMessage)`: the mention gate. -/
def containsMention (s : String) : Bool :=
  (List.range s.data.length).any (fun i =>
    match s.data.drop i with
    | '@' :: c :: _ => isWordChar c
    | _ => false)

/-- The caps gate: strip non-ASCII-letters; reject when at least 3 letters
remain and they all are uppercase (`lettersOnly === lettersOnly.toUpperCase()`). -/
def isCapsShout (s : String) : Bool :=
  let letters := s.data.filter Char.isAlpha
  3 ≤ letters.length && letters.all Char.isUpper

/-- The language gate: the `hasNonEnglish` character-class test. -/
def hasNonEnglish (s : String) : Bool :=
  s.data.any (fun c =>
    let n := c.toNat
    (0x400 ≤ n && n ≤ 0x4FF) || (0x4E00 ≤ n && n ≤ 0x9FFF) ||
    (0x3040 ≤ n && n ≤ 0x309F) || (0x30A0 ≤ n && n ≤ 0x30FF) ||
    (0xAC00 ≤ n && n ≤ 0xD7AF) || (0x590 ≤ n && n ≤ 0x5FF) ||
    (0x600 ≤ n && n ≤ 0x6FF) || (0x750 ≤ n && n ≤ 0x77F) ||
    (0x900 ≤ n && n ≤ 0x97F) || (0xFF00 ≤ n && n ≤ 0xFFEF))

/-- `/^[A-Z0-9]{4,6}$/` applied to the uppercased nickname. -/
def deviceCodeShape (s : String) : Bool :=
  decide (4 ≤ s.data.length) && decide (s.data.length ≤ 6) &&
  s.data.all (fun c => ('A' ≤ c && c ≤ 'Z') || ('0' ≤ c && c ≤ '9'))

/-- `/^[a-zA-Z0-9_]+$/` of nickname validation. -/
def englishOnlyTest (s : String) : Bool :=
  s ≠ "" && s.data.all (fun c => c.isAlpha || c.isDigit || c = '_')

/-- The banned-fingerprint test a handler performs on
`socket.clientFingerprint` (falsy when never reported). -/
def socketFpBanned (st : ServerState) (sock : Nat) : Bool :=
  match alGet st.socketFingerprint sock with
  | some fp => st.bannedFingerprints.contains fp
  | none => false

/-- The `clientIP` captured for this socket at connect time. -/
def socketIpOf (st : ServerState) (sock : Nat) : String :=
  (alGet st.socketIp sock).getD ""

/-- History sent on login: `messages.filter(msg.timestamp > now - RETENTION)`. -/
def recentMessages (st : ServerState) (now : Int) : List Message :=
  st.messages.filter (fun m => now - RETENTION < m.timestamp)

/-- The connection callback: register in `allConnections`, reject banned
IPs, broadcast the online count, then silently validate the
`chatSession` cookie (with token rotation when the IP changed).
`oToken` is the token `generateSessionToken()` would return. -/
def onConnect (st : ServerState) (sock : Nat) (ip : String)
    (cookieToken : Option String) (oToken : String) : StepResult :=
  let conns1 := setAdd st.allConnections sock
  let st1 := { st with allConnections := conns1,
                       socketIp := alSet st.socketIp sock ip }
  if st.bannedIPs.contains ip then
    { state := { st1 with allConnections := setDel conns1 sock },
      out := [.emitTo sock .banned, .disconnectSock sock], threw := false }
  else
    let out1 := [Out.broadcast (.onlineCount conns1.length)]
    match cookieToken with
    | none => { state := st1, out := out1, threw := false }
    | some tok =>
      match validateSessionTokenStr tok st1 with
      | none =>
        { state := st1, out := out1 ++ [.emitTo sock .invalidSession],
          threw := false }
      | some user =>
        if st1.bannedUsers.contains user.id then
          { state := { st1 with allConnections := setDel conns1 sock },
            out := out1 ++ [.emitTo sock .banned, .disconnectSock sock],
            threw := false }
        else if user.ip ≠ ip then
          let user' := { user with ip := ip, sessionToken := oToken }
          { state := { st1 with
              sessionTokens :=
                alSet (alDel st1.sessionTokens user.sessionToken) oToken user.id,
              registeredUsers := alSet st1.registeredUsers user.id user' },
            out := out1 ++ [.emitTo sock
              (.sessionValid user.id user.nickname user.avatarHue user.isAdmin
                oToken)],
            threw := false }
        else
          { state := st1,
            out := out1 ++ [.emitTo sock
              (.sessionValid user.id user.nickname user.avatarHue user.isAdmin
                tok)],
            threw := false }

/-- The `setFingerprint` handler. -/
def onSetFingerprint (st : ServerState) (sock : Nat) (payload : JSValue) :
    StepResult :=
  match payload with
  | .str s =>
    if s ≠ "" then
      let st1 := { st with socketFingerprint := alSet st.socketFingerprint sock s }
      if st.bannedFingerprints.contains s then
        { state := { st1 with allConnections := setDel st1.allConnections sock },
          out := [.emitTo sock .banned, .disconnectSock sock], threw := false }
      else { state := st1, out := [], threw := false }
    else { state := st, out := [], threw := false }
  | _ => { state := st, out := [], threw := false }

/-- The device-code login branch inside `setNickname`, entered when the
uppercased input matched a currently assigned device code. -/
def deviceLoginBranch (st : ServerState) (sock : Nat) (dcUser : RegUser)
    (oToken : String) (now : Int) (ip : String) : StepResult :=
  if st.bannedUsers.contains dcUser.id then
    { state := st, out := [.emitTo sock .banned], threw := false }
  else
    let dcUser' := { dcUser with deviceCode := none }
    let reg1 := alSet st.registeredUsers dcUser.id dcUser'
    let notifyOuts :=
      match alGet st.userSessions dcUser.id with
      | some socks =>
        (socks.filter (fun ss => st.allConnections.contains ss)).map
          (fun ss => Out.emitTo ss .deviceCodeDeleted)
      | none => []
    let stoks := alSet st.sessionTokens oToken dcUser.id
    let activeUser : ActiveUser :=
      { id := dcUser.id, nickname := dcUser.nickname, socketId := sock,
        avatarHue := dcUser.avatarHue, joinedAt := now,
        isAdmin := dcUser.isAdmin, ip := ip }
    let sess1 :=
      match alGet st.userSessions dcUser.id with
      | some socks => alSet st.userSessions dcUser.id (setAdd socks sock)
      | none => alSet st.userSessions dcUser.id [sock]
    let st' := { st with registeredUsers := reg1, sessionTokens := stoks,
                         users := alSet st.users sock activeUser,
                         socketUserId := alSet st.socketUserId sock dcUser.id,
                         userSessions := sess1 }
    { state := st',
      out := notifyOuts ++
        [.emitTo sock (.nicknameAccepted dcUser.id dcUser.nickname
            dcUser.avatarHue dcUser.isAdmin none oToken false true),
         .emitTo sock (.messageHistory (recentMessages st now)),
         .broadcast (.userJoined dcUser.nickname st.allConnections.length)],
      threw := false }

/-- The plain registration branch of `setNickname` on a string input. -/
def registrationBranch (st : ServerState) (sock : Nat) (s : String)
    (oUserId oToken : String) (oHue : Nat) (now : Int) (ip : String) :
    StepResult :=
  if s = "" || utf16Len (jsTrim s) < 3 || 20 < utf16Len s then
    { state := st,
      out := [.emitTo sock (.errorMsg "Nickname must be 3-20 characters")],
      threw := false }
  else if ¬ englishOnlyTest s then
    { state := st,
      out := [.emitTo sock (.errorMsg
        "Nickname must contain only English letters, numbers, and underscores")],
      threw := false }
  else if ¬ isNicknameAvailable s st then
    { state := st, out := [.emitTo sock (.errorMsg "Nickname already taken")],
      threw := false }
  else
    let isAdm := st.adminId.isNone && asciiLower s = "mefisto"
    let activeUser : ActiveUser :=
      { id := oUserId, nickname := s, socketId := sock, avatarHue := oHue,
        joinedAt := now, isAdmin := isAdm, ip := ip }
    let ufp :=
      match alGet st.socketFingerprint sock with
      | some fp => alSet st.userFingerprints oUserId fp
      | none => st.userFingerprints
    let regUser : RegUser :=
      { id := oUserId, nickname := s, avatarHue := oHue, isAdmin := isAdm,
        ip := ip, sessionToken := oToken, deviceCode := none }
    { state := { st with
        users := alSet st.users sock activeUser,
        socketUserId := alSet st.socketUserId sock oUserId,
        userFingerprints := ufp,
        registeredUsers := alSet st.registeredUsers oUserId regUser,
        sessionTokens := alSet st.sessionTokens oToken oUserId,
        adminId := if isAdm then some oUserId else st.adminId },
      out := [.emitTo sock (.nicknameAccepted oUserId s oHue isAdm none oToken
                false false),
              .emitTo sock (.messageHistory (recentMessages st now)),
              .broadcast (.userJoined s st.allConnections.length)],
      threw := false }

/-- The `setNickname` handler.  A truthy non-string payload reaches
`nickname.toUpperCase()` and throws. -/
def onSetNickname (st : ServerState) (sock : Nat) (payload : JSValue)
    (oUserId oToken : String) (oHue : Nat) (now : Int) : StepResult :=
  let ip := socketIpOf st sock
  if st.bannedIPs.contains ip then
    { state := st, out := [.emitTo sock .banned, .disconnectSock sock],
      threw := false }
  else if socketFpBanned st sock then
    { state := st, out := [.emitTo sock .banned, .disconnectSock sock],
      threw := false }
  else if jsTruthy payload then
    match payload with
    | .str s =>
      if deviceCodeShape (asciiUpper s) then
        match validateDeviceCode (asciiUpper s) st with
        | some dcUser => deviceLoginBranch st sock dcUser oToken now ip
        | none => registrationBranch st sock s oUserId oToken oHue now ip
      else registrationBranch st sock s oUserId oToken oHue now ip
    | _ => { state := st, out := [], threw := true }
  else
    { state := st,
      out := [.emitTo sock (.errorMsg "Nickname must be 3-20 characters")],
      threw := false }

/-- The success tail of `rejoin` after all checks passed, including the
IP-change token rotation. -/
def rejoinSuccess (st : ServerState) (sock : Nat) (user : RegUser)
    (oToken : String) (now : Int) (ip : String) : StepResult :=
  let rotate := user.ip ≠ ip
  let user' := if rotate then { user with ip := ip, sessionToken := oToken }
               else user
  let tokCur := if rotate then oToken else user.sessionToken
  let st1 :=
    if rotate then
      { st with
          sessionTokens :=
            alSet (alDel st.sessionTokens user.sessionToken) oToken user.id,
          registeredUsers := alSet st.registeredUsers user.id user' }
    else st
  let activeUser : ActiveUser :=
    { id := user.id, nickname := user.nickname, socketId := sock,
      avatarHue := user.avatarHue, joinedAt := now, isAdmin := user.isAdmin,
      ip := ip }
  let sess1 :=
    match alGet st1.userSessions user.id with
    | some socks => alSet st1.userSessions user.id (setAdd socks sock)
    | none => alSet st1.userSessions user.id [sock]
  let st2 := { st1 with users := alSet st1.users sock activeUser,
                        socketUserId := alSet st1.socketUserId sock user.id,
                        userSessions := sess1 }
  { state := st2,
    out := [.emitTo sock (.nicknameAccepted user.id user.nickname
              user.avatarHue user.isAdmin user.deviceCode tokCur true false),
            .emitTo sock (.messageHistory (recentMessages st now)),
            .broadcast (.userJoined user.nickname st.allConnections.length)],
    threw := false }

/-- The `rejoin` handler. -/
def onRejoin (st : ServerState) (sock : Nat) (payload : JSValue)
    (oToken : String) (now : Int) : StepResult :=
  let ip := socketIpOf st sock
  if st.bannedIPs.contains ip then
    { state := st, out := [.emitTo sock .banned, .disconnectSock sock],
      threw := false }
  else if socketFpBanned st sock then
    { state := st, out := [.emitTo sock .banned, .disconnectSock sock],
      threw := false }
  else if ¬ jsTruthy payload || ¬ jsTruthy (jsSessionTokenField payload) then
    { state := st, out := [.emitTo sock (.errorMsg "Invalid session data")],
      threw := false }
  else
    match jsValidateSessionToken (jsSessionTokenField payload) st with
    | none =>
      { state := st, out := [.emitTo sock .invalidSession], threw := false }
    | some user =>
      if st.bannedUsers.contains user.id then
        { state := st, out := [.emitTo sock .banned], threw := false }
      else rejoinSuccess st sock user oToken now ip

/-- The `generateDeviceCode` handler; `draw` supplies the stream of raw
4-character draws of `generateDeviceCode()`. -/
def onGenDeviceCode (st : ServerState) (sock : Nat) (draw : Nat → String) :
    StepResult :=
  let attributed :=
    match alGet st.socketUserId sock with
    | none => false
    | some _ => alHas st.users sock
  if attributed = false then
    { state := st, out := [.emitTo sock (.errorMsg "You must be logged in")],
      threw := false }
  else
    match alGet st.users sock with
    | none =>
      { state := st, out := [.emitTo sock (.errorMsg "You must be logged in")],
        threw := false }
    | some user =>
      match alGet st.registeredUsers user.id with
      | none =>
        { state := st, out := [.emitTo sock (.errorMsg "User not found")],
          threw := false }
      | some regUser =>
        let code :=
          generateUniqueDeviceCode draw (st.registeredUsers.map (fun p => p.2))
        let reg1 := alSet st.registeredUsers user.id
          { regUser with deviceCode := some code }
        { state := { st with registeredUsers := reg1 },
          out := [.emitTo sock (.deviceCodeGenerated code)], threw := false }

/-- The moderation gates and acceptance path of the `message` handler on a
string payload, after attribution and ban checks passed. -/
def messageGates (st : ServerState) (sock : Nat) (uid : String)
    (user : ActiveUser) (s : String) (oMsgId : String) (now : Int) :
    StepResult :=
  if s = "" || utf16Len (jsTrim s) = 0 || 100 < utf16Len s then
    { state := st,
      out := [.emitTo sock (.errorMsg "Message must be 1-100 characters")],
      threw := false }
  else
    let trimmed := jsTrim s
    if containsUrl trimmed then
      { state := st,
        out := [.emitTo sock (.errorMsg "Links are not allowed in chat")],
        threw := false }
    else if containsMention trimmed then
      { state := st,
        out := [.emitTo sock (.errorMsg "Mentions (@username) are not allowed")],
        threw := false }
    else if alGet st.userLastMessages uid = some trimmed then
      { state := st,
        out := [.emitTo sock (.errorMsg "Cannot send duplicate messages")],
        threw := false }
    else if isCapsShout trimmed then
      { state := st,
        out := [.emitTo sock (.errorMsg "Please do not use all CAPS")],
        threw := false }
    else if hasNonEnglish trimmed then
      { state := st,
        out := [.emitTo sock (.errorMsg "Only English language is allowed in chat")],
        threw := false }
    else
      let m : Message :=
        { id := oMsgId, userId := user.id, nickname := user.nickname,
          avatarHue := user.avatarHue, message := trimmed, timestamp := now }
      { state := { st with
          userLastMessages := alSet st.userLastMessages uid trimmed,
          messages := st.messages ++ [m] },
        out := [.broadcast (.chatMessage m)], threw := false }

/-- The `message` handler.  A truthy non-string payload reaches
`messageText.trim()` and throws. -/
def onMessage (st : ServerState) (sock : Nat) (payload : JSValue)
    (oMsgId : String) (now : Int) : StepResult :=
  match alGet st.socketUserId sock with
  | none =>
    { state := st,
      out := [.emitTo sock (.errorMsg "You must set a nickname first")],
      threw := false }
  | some uid =>
    match alGet st.users sock with
    | none =>
      { state := st,
        out := [.emitTo sock (.errorMsg "You must set a nickname first")],
        threw := false }
    | some user =>
      if st.bannedUsers.contains uid then
        { state := st, out := [.emitTo sock .banned], threw := false }
      else
        match payload with
        | .str s =>
          if s = "" then
            { state := st,
              out := [.emitTo sock (.errorMsg "Message must be 1-100 characters")],
              threw := false }
          else messageGates st sock uid user s oMsgId now
        | p =>
          if jsTruthy p then { state := st, out := [], threw := true }
          else
            { state := st,
              out := [.emitTo sock (.errorMsg "Message must be 1-100 characters")],
              threw := false }

/-- The ban cascade of `banUser` once the requester was verified as admin
and the target found and distinct from the admin. -/
def banCascade (st : ServerState) (target : String) (tdata : RegUser) :
    StepResult :=
  let bu := setAdd st.bannedUsers target
  let bn := setAdd st.bannedNicknames (asciiLower tdata.nickname)
  let adminIP : Option String :=
    match st.adminId with
    | some aid => (alGet st.registeredUsers aid).map (fun u => u.ip)
    | none => none
  let bip :=
    if tdata.ip ≠ "" then
      match adminIP with
      | some aip => if tdata.ip ≠ aip then setAdd st.bannedIPs tdata.ip
                    else st.bannedIPs
      | none => setAdd st.bannedIPs tdata.ip
    else st.bannedIPs
  let bfp :=
    match alGet st.userFingerprints target with
    | some fp => setAdd st.bannedFingerprints fp
    | none => st.bannedFingerprints
  let stoks :=
    if tdata.sessionToken ≠ "" then alDel st.sessionTokens tdata.sessionToken
    else st.sessionTokens
  let removed := st.messages.filter (fun m => m.userId = target)
  let msgs := st.messages.filter (fun m => ¬ m.userId = target)
  let delOuts := removed.reverse.map (fun m => Out.broadcast (.messageDeleted m.id))
  let sessOuts :=
    match alGet st.userSessions target with
    | some socks =>
      socks.foldr (fun ss acc =>
        (if st.allConnections.contains ss then
           [Out.emitTo ss .banned, Out.disconnectSock ss]
         else []) ++ acc) []
    | none => []
  let users1 :=
    match alGet st.userSessions target with
    | some socks => socks.foldl (fun u ss => alDel u ss) st.users
    | none => st.users
  let sess1 :=
    match alGet st.userSessions target with
    | some _ => alDel st.userSessions target
    | none => st.userSessions
  let st' := { st with bannedUsers := bu, bannedNicknames := bn,
                       bannedIPs := bip, bannedFingerprints := bfp,
                       sessionTokens := stoks, messages := msgs,
                       users := users1, userSessions := sess1,
                       registeredUsers := alDel st.registeredUsers target }
  { state := st',
    out := delOuts ++ sessOuts ++
      [.broadcast (.userLeft tdata.nickname st.allConnections.length true)],
    threw := false }

/-- The `banUser` handler. -/
def onBanUser (st : ServerState) (sock : Nat) (payload : JSValue) :
    StepResult :=
  let requesterIsAdmin :=
    match alGet st.socketUserId sock, st.adminId with
    | some u, some a => u = a
    | _, _ => false
  if requesterIsAdmin = false then
    { state := st,
      out := [.emitTo sock (.errorMsg "Only admin can ban users")],
      threw := false }
  else
    match payload with
    | .str target =>
      match alGet st.registeredUsers target with
      | none =>
        { state := st, out := [.emitTo sock (.errorMsg "User not found")],
          threw := false }
      | some tdata =>
        if st.adminId = some target then
          { state := st, out := [.emitTo sock (.errorMsg "Cannot ban admin")],
            threw := false }
        else banCascade st target tdata
    | _ =>
      { state := st, out := [.emitTo sock (.errorMsg "User not found")],
        threw := false }

/-- The `disconnect` handler. -/
def onDisconnect (st : ServerState) (sock : Nat) : StepResult :=
  let conns1 := setDel st.allConnections sock
  let out1 := [Out.broadcast (.onlineCount conns1.length)]
  match alGet st.socketUserId sock with
  | none =>
    { state := { st with allConnections := conns1 }, out := out1,
      threw := false }
  | some uid =>
    match alGet st.users sock with
    | none =>
      { state := { st with allConnections := conns1 }, out := out1,
        threw := false }
    | some user =>
      let users1 := alDel st.users sock
      match alGet st.userSessions uid with
      | none =>
        { state := { st with allConnections := conns1, users := users1 },
          out := out1, threw := false }
      | some socks =>
        let socks' := setDel socks sock
        if socks' = [] then
          { state := { st with allConnections := conns1, users := users1,
                               userSessions := alDel st.userSessions uid },
            out := out1 ++
              [.broadcast (.userLeft user.nickname conns1.length false)],
            threw := false }
        else
          { state := { st with allConnections := conns1, users := users1,
                               userSessions := alSet st.userSessions uid socks' },
            out := out1, threw := false }

/-- `POST /admin/clear-users` (the admin-key comparison is passed in as a
boolean). -/
def onClearUsers (st : ServerState) (keyOk : Bool) : StepResult :=
  if keyOk then
    { state := { st with registeredUsers := [], sessionTokens := [],
                         users := [], adminId := none },
      out := [], threw := false }
  else { state := st, out := [], threw := false }

/-- `POST /admin/clear-bans`. -/
def onClearBans (st : ServerState) (keyOk : Bool) : StepResult :=
  if keyOk then
    { state := { st with bannedIPs := [], bannedUsers := [],
                         bannedNicknames := [], bannedFingerprints := [] },
      out := [], threw := false }
  else { state := st, out := [], threw := false }

/-- `POST /admin/unban-ip`. -/
def onUnbanIp (st : ServerState) (keyOk : Bool) (ip : Option String) :
    StepResult :=
  if keyOk then
    match ip with
    | some i =>
      if i ≠ "" && st.bannedIPs.contains i then
        { state := { st with bannedIPs := setDel st.bannedIPs i }, out := [],
          threw := false }
      else { state := st, out := [], threw := false }
    | none => { state := st, out := [], threw := false }
  else { state := st, out := [], threw := false }

/-- One inbound event together with the oracle values the handler would
obtain from `uuidv4()` / `generateSessionToken()` / `generateDeviceCode()`
/ `Math.random` / `Date.now()` during its run. -/
inductive Event where
  | connect (sock : Nat) (ip : String) (cookieToken : Option String)
      (oToken : String)
  | setFingerprint (sock : Nat) (payload : JSValue)
  | setNickname (sock : Nat) (payload : JSValue) (oUserId oToken : String)
      (oHue : Nat) (now : Int)
  | rejoin (sock : Nat) (payload : JSValue) (oToken : String) (now : Int)
  | genDeviceCode (sock : Nat) (draw : Nat → String)
  | message (sock : Nat) (payload : JSValue) (oMsgId : String) (now : Int)
  | banUser (sock : Nat) (payload : JSValue)
  | disconnect (sock : Nat)
  | clearUsers (keyOk : Bool)
  | clearBans (keyOk : Bool)
  | unbanIp (keyOk : Bool) (ip : Option String)

/-- Dispatch of one event to its handler. -/
def step (st : ServerState) : Event → StepResult
  | .connect sock ip ct ot => onConnect st sock ip ct ot
  | .setFingerprint sock p => onSetFingerprint st sock p
  | .setNickname sock p ou ot oh now => onSetNickname st sock p ou ot oh now
  | .rejoin sock p ot now => onRejoin st sock p ot now
  | .genDeviceCode sock draw => onGenDeviceCode st sock draw
  | .message sock p om now => onMessage st sock p om now
  | .banUser sock p => onBanUser st sock p
  | .disconnect sock => onDisconnect st sock
  | .clearUsers k => onClearUsers st k
  | .clearBans k => onClearBans st k
  | .unbanIp k ip => onUnbanIp st k ip

/-- Run a trace of events from a state. -/
def run (st : ServerState) (es : List Event) : ServerState :=
  es.foldl (fun s e => (step s e).state) st

/-- Run a trace and collect every emitted action in order. -/
def runOut (st : ServerState) (es : List Event) : ServerState × List Out :=
  es.foldl (fun p e =>
    let r := step p.1 e
    (r.state, p.2 ++ r.out)) (st, [])

/-- A state is reachable when some event trace produces it from the empty
start state of the process. -/
def Reachable (st : ServerState) : Prop :=
  ∃ es : List Event, run initialState es = st

/-- The snapshot document `saveData` writes (`_id: 'main'`). -/
structure Snapshot where
  registeredUsers : List (String × RegUser)
  sessionTokens : List (String × String)
  messages : List Message
  bannedUsers : List String
  bannedNicknames : List String
  bannedIPs : List String
  bannedFingerprints : List String
  userFingerprints : List (String × String)
  adminId : Option String
  timestamp : Int
deriving DecidableEq, Repr

/-- `saveData`: serialize the state; `messages.slice(-1000)` keeps only the
most recent 1000 log entries. -/
def saveData (st : ServerState) (now : Int) : Snapshot :=
  { registeredUsers := st.registeredUsers,
    sessionTokens := st.sessionTokens,
    messages := st.messages.drop (st.messages.length - 1000),
    bannedUsers := st.bannedUsers,
    bannedNicknames := st.bannedNicknames,
    bannedIPs := st.bannedIPs,
    bannedFingerprints := st.bannedFingerprints,
    userFingerprints := st.userFingerprints,
    adminId := st.adminId,
    timestamp := now }

/-- `loadData` into a freshly started (empty) process: each collection is
rebuilt by `forEach`-inserting the snapshot arrays; messages are re-added
only when `msg.timestamp > now - MESSAGE_RETENTION_TIME`. -/
def loadData (snap : Snapshot) (now : Int) : ServerState :=
  { initialState with
      registeredUsers :=
        snap.registeredUsers.foldl (fun acc p => alSet acc p.1 p.2) [],
      sessionTokens :=
        snap.sessionTokens.foldl (fun acc p => alSet acc p.1 p.2) [],
      messages := snap.messages.filter (fun m => now - RETENTION < m.timestamp),
      bannedUsers := snap.bannedUsers.foldl setAdd [],
      bannedNicknames := snap.bannedNicknames.foldl setAdd [],
      bannedIPs := snap.bannedIPs.foldl setAdd [],
      bannedFingerprints := snap.bannedFingerprints.foldl setAdd [],
      userFingerprints :=
        snap.userFingerprints.foldl (fun acc p => alSet acc p.1 p.2) [],
      adminId := match snap.adminId with
                 | some a => if a ≠ "" then some a else none
                 | none => none }

/-- The moderation gates in the order the specification fixes. -/
inductive Gate where
  | lengthGate
  | linkGate
  | mentionGate
  | dupGate
  | capsGate
  | langGate
deriving DecidableEq, Repr

/-- Modelled from the spec: the fixed gate order
length → link → mention → dup → caps → language. -/
def gateOrder : List Gate :=
  [.lengthGate, .linkGate, .mentionGate, .dupGate, .capsGate, .langGate]

/-- Modelled from the spec: whether a gate rejects the raw message text `s`
sent by the identity `uid` in state `st`. -/
def gateFails (st : ServerState) (uid : String) (s : String) : Gate → Bool
  | .lengthGate => s = "" || utf16Len (jsTrim s) = 0 || 100 < utf16Len s
  | .linkGate => containsUrl (jsTrim s)
  | .mentionGate => containsMention (jsTrim s)
  | .dupGate => alGet st.userLastMessages uid = some (jsTrim s)
  | .capsGate => isCapsShout (jsTrim s)
  | .langGate => hasNonEnglish (jsTrim s)

/-- Modelled from the spec: the error text each gate reports. -/
def gateError : Gate → String
  | .lengthGate => "Message must be 1-100 characters"
  | .linkGate => "Links are not allowed in chat"
  | .mentionGate => "Mentions (@username) are not allowed"
  | .dupGate => "Cannot send duplicate messages"
  | .capsGate => "Please do not use all CAPS"
  | .langGate => "Only English language is allowed in chat"

/-- Modelled from the spec (§4.5): the message pipeline as a first-failing-
gate state machine — attribution and ban first, then the six content gates
in `gateOrder`, short-circuiting at the first failure; on success append
the message and broadcast it. -/
def moderationSpec (st : ServerState) (sock : Nat) (s : String)
    (oMsgId : String) (now : Int) : StepResult :=
  match alGet st.socketUserId sock with
  | none =>
    { state := st,
      out := [.emitTo sock (.errorMsg "You must set a nickname first")],
      threw := false }
  | some uid =>
    match alGet st.users sock with
    | none =>
      { state := st,
        out := [.emitTo sock (.errorMsg "You must set a nickname first")],
        threw := false }
    | some user =>
      if st.bannedUsers.contains uid then
        { state := st, out := [.emitTo sock .banned], threw := false }
      else
        match gateOrder.find? (gateFails st uid s) with
        | some g =>
          { state := st, out := [.emitTo sock (.errorMsg (gateError g))],
            threw := false }
        | none =>
          let m : Message :=
            { id := oMsgId, userId := user.id, nickname := user.nickname,
              avatarHue := user.avatarHue, message := jsTrim s,
              timestamp := now }
          { state := { st with
              userLastMessages := alSet st.userLastMessages uid (jsTrim s),
              messages := st.messages ++ [m] },
            out := [.broadcast (.chatMessage m)], threw := false }

/-- Number of `userJoined` broadcasts in an output list. -/
def countUserJoined (outs : List Out) : Nat :=
  (outs.filter (fun o => match o with
    | .broadcast (.userJoined _ _) => true
    | _ => false)).length

/-- Number of `userLeft` broadcasts in an output list. -/
def countUserLeft (outs : List Out) : Nat :=
  (outs.filter (fun o => match o with
    | .broadcast (.userLeft _ _ _) => true
    | _ => false)).length

/-- Is this action an `error` emit? -/
def isErrOut : Out → Bool
  | .emitTo _ (.errorMsg _) => true
  | _ => false

/-- Does an output list report an `error` to some connection? -/
def hasErrorOut (outs : List Out) : Bool := outs.any isErrOut

/-- The two handlers whose body can reach a string method on the raw
payload (`setNickname`, `message`). -/
def eventKindCanThrow : Event → Bool
  | .setNickname _ _ _ _ _ _ => true
  | .message _ _ _ _ => true
  | _ => false

/-- `banned` was emitted to this socket. -/
def bannedEmittedTo (outs : List Out) (sock : Nat) : Bool :=
  outs.contains (.emitTo sock .banned)

/-- The socket was force-disconnected. -/
def disconnectedSock (outs : List Out) (sock : Nat) : Bool :=
  outs.contains (.disconnectSock sock)

/-- C1 scenario: register alice (token `tok1`), have her generate device
code `CODE`, then consume that code from a second connection which is
handed token `tok2`. -/
def c1trace : List Event :=
  [.connect 1 "ip1" none "",
   .setNickname 1 (.str "alice") "uA" "tok1" 0 100,
   .genDeviceCode 1 (fun _ => "CODE"),
   .connect 2 "ip2" none "",
   .setNickname 2 (.str "code") "uX" "tok2" 0 200]

def c1state : ServerState := run initialState c1trace

/-- C2 scenario: register `mefisto` (admin), clear all users through the
admin REST endpoint, then register `Mefisto` again as a fresh identity. -/
def c2traceA : List Event :=
  [.connect 1 "ip1" none "", .setNickname 1 (.str "mefisto") "uA" "t1" 0 0]

def c2traceB : List Event :=
  c2traceA ++
  [.clearUsers true, .connect 2 "ip2" none "",
   .setNickname 2 (.str "Mefisto") "uB" "t2" 0 0]

def c2stateA : ServerState := run initialState c2traceA

def c2stateB : ServerState := run initialState c2traceB

/-- C3 scenario: alice registers and disconnects, then resumes her session
on two new concurrent connections. -/
def c3preTrace : List Event :=
  [.connect 1 "ip" none "", .setNickname 1 (.str "alice") "uA" "t1" 0 0,
   .disconnect 1]

def c3preState : ServerState := run initialState c3preTrace

def c3resumeEvents : List Event :=
  [.connect 2 "ip" none "", .rejoin 2 (.objTok (.str "t1")) "tX" 0,
   .connect 3 "ip" none "", .rejoin 3 (.objTok (.str "t1")) "tY" 0]

def c3bothState : ServerState := run c3preState c3resumeEvents

/-- C4 scenario: a fresh connection is sent `setNickname` with the number
`1` as payload. -/
def c4demoState : ServerState := run initialState [.connect 1 "ip" none ""]

/-- C5 scenario: an attributed, unbanned sender. -/
def c5demoState : ServerState :=
  run initialState
    [.connect 1 "ip" none "", .setNickname 1 (.str "alice") "uA" "t1" 0 0]

/-- C6 scenario: the admin bans registered alice; since plain registration
never recorded her socket in `userSessions`, her connection survives the
cascade and her next `message` hits the banned-user check. -/
def c6state : ServerState :=
  run initialState
    [.connect 1 "ipA" none "", .setNickname 1 (.str "mefisto") "uM" "tM" 0 0,
     .connect 2 "ipB" none "", .setNickname 2 (.str "alice") "uA" "tA" 0 0,
     .banUser 1 (.str "uA")]

/-- C7 scenario: user `AB12` is registered and banned while another user
holds the live device code `AB12`; a later `setNickname "AB12"` is then
diverted into device-code login instead of failing with NicknameTaken. -/
def c7state : ServerState :=
  run initialState
    [.connect 1 "ipM" none "", .setNickname 1 (.str "mefisto") "uM" "tM" 0 0,
     .connect 2 "ipB" none "", .setNickname 2 (.str "AB12") "uB" "tB" 0 0,
     .connect 3 "ipC" none "", .setNickname 3 (.str "carol") "uC" "tC" 0 0,
     .genDeviceCode 3 (fun _ => "AB12"),
     .banUser 1 (.str "uB")]

/-- C8 scenario: one registered user already holds code `AAAA` and the
random draw always produces `AAAA`, so all 100 attempts collide. -/
def c8regs : List RegUser :=
  [{ id := "uC", nickname := "carol", avatarHue := 0, isAdmin := false,
     ip := "ip", sessionToken := "tC", deviceCode := some "AAAA" }]

/-- C10 scenario: carol holds `AAAA`; bob and dave both exhaust the retry
loop against it and are assigned the identical fallback code `AAAAAA`. -/
def c10trace : List Event :=
  [.connect 1 "ip1" none "", .setNickname 1 (.str "carol") "uC" "tC" 0 0,
   .genDeviceCode 1 (fun _ => "AAAA"),
   .connect 2 "ip2" none "", .setNickname 2 (.str "bob") "uB" "tB" 0 0,
   .genDeviceCode 2 (fun _ => "AAAA"),
   .connect 3 "ip3" none "", .setNickname 3 (.str "dave") "uD" "tD" 0 0,
   .genDeviceCode 3 (fun _ => "AAAA")]

def c10state : ServerState := run initialState c10trace

/-- C9 message texts alternate so the duplicate gate never fires. -/
def c9Text (i : Nat) : String := if i % 2 = 0 then "a" else "b"

/-- C9: `n` accepted message events starting at index `k`, all sent by
alice from socket 1 at time 0. -/
def c9msgEvents (k n : Nat) : List Event :=
  (List.range n).map (fun i => .message 1 (.str (c9Text (k + i))) (toString (k + i)) 0)

/-- The message record the handler appends for the `j`-th C9 send. -/
def c9Msg (j : Nat) : Message :=
  { id := toString j, userId := "uA", nickname := "alice", avatarHue := 0,
    message := c9Text j, timestamp := 0 }

def c9MsgList (k n : Nat) : List Message :=
  (List.range n).map (fun i => c9Msg (k + i))

/-- Alice's active-connection record in the C9 scenario. -/
def c9Alice : ActiveUser :=
  { id := "uA", nickname := "alice", socketId := 1, avatarHue := 0,
    joinedAt := 0, isAdmin := false, ip := "ip" }

/-- State after alice registered on socket 1, before the message flood. -/
def c9Base : ServerState :=
  run initialState
    [.connect 1 "ip" none "", .setNickname 1 (.str "alice") "uA" "t1" 0 0]

/-- What the message handler needs to keep accepting alice's sends. -/
def c9Cond (st : ServerState) : Prop :=
  alGet st.socketUserId 1 = some "uA" ∧ alGet st.users 1 = some c9Alice ∧
  st.bannedUsers = []

/-- The reachable state holding 1001 fresh messages. -/
def c9state : ServerState := run c9Base (c9msgEvents 0 1001)

/-- Small state used to instantiate the amended C9 round-trip theorem. -/
def c9WitState : ServerState :=
  { c9Base with
      messages := [{ id := "m0", userId := "uA", nickname := "alice",
                     avatarHue := 0, message := "old", timestamp := 0 },
                   { id := "m1", userId := "uA", nickname := "alice",
                     avatarHue := 0, message := "new",
                     timestamp := 200000000 }],
      bannedUsers := ["uX"], bannedNicknames := ["evil"],
      bannedIPs := ["9.9.9.9"], bannedFingerprints := ["fp1"],
      userFingerprints := [("uA", "fpA")] }

/-- Registry invariant maintained by every handler: entries are keyed by
their own id, and an admin entry's key is the recorded `adminId`. -/
def RegistryInv (st : ServerState) : Prop :=
  (∀ p ∈ st.registeredUsers, p.2.id = p.1) ∧
  (∀ p ∈ st.registeredUsers, p.2.isAdmin = true → st.adminId = some p.1)

/-- All characters of the string come from the device-code alphabet
`A-Z0-9`. -/
def codeAlphaOk (s : String) : Bool :=
  s.data.all (fun c => ('A' ≤ c && c ≤ 'Z') || ('0' ≤ c && c ≤ '9'))

/-- The draw stream produces 4-character codes over the alphabet, as
`generateDeviceCode()` does. -/
def DrawsWellFormed (draw : Nat → String) : Prop :=
  ∀ i, (draw i).data.length = 4 ∧ codeAlphaOk (draw i) = true

/-- C4 scenario with an attributed sender, for the `message` handler. -/
def c4msgState : ServerState :=
  run initialState
    [.connect 1 "ip" none "", .setNickname 1 (.str "bob") "uB" "tB" 0 0]

/-- A state with one banned IP, to instantiate the C6 amended theorem. -/
def c6ipState : ServerState := { initialState with bannedIPs := ["1.2.3.4"] }

/-- C7 pre-ban state: mefisto is admin, `AB12` and carol are registered,
carol holds live device code `AB12`. -/
def c7preState : ServerState :=
  run initialState
    [.connect 1 "ipM" none "", .setNickname 1 (.str "mefisto") "uM" "tM" 0 0,
     .connect 2 "ipB" none "", .setNickname 2 (.str "AB12") "uB" "tB" 0 0,
     .connect 3 "ipC" none "", .setNickname 3 (.str "carol") "uC" "tC" 0 0,
     .genDeviceCode 3 (fun _ => "AB12")]

/-- A state whose only content is the banned nickname `ab12`, to
instantiate the nickname-blocked half of the C7 amended theorem. -/
def c7nickState : ServerState := { initialState with bannedNicknames := ["ab12"] }

theorem alGet_mem {α β : Type} [DecidableEq α] {l : List (α × β)} {k : α}
    {v : β} (h : alGet l k = some v) : (k, v) ∈ l := by
  unfold alGet at h
  cases hf : l.find? (fun p => p.1 = k) with
  | none => simp [hf] at h
  | some q =>
    simp only [hf, Option.map_some] at h
    have hq := List.find?_some hf
    have hm := List.mem_of_find?_eq_some hf
    simp only [decide_eq_true_eq] at hq
    have hkv : (k, v) = q := by
      obtain ⟨a, b⟩ := q
      have hb : b = v := by
        simpa using h
      have ha2 : a = k := hq
      subst ha2
      subst hb
      rfl
    rw [hkv]
    exact hm

theorem mem_alSet {α β : Type} [DecidableEq α] {l : List (α × β)} {k : α}
    {v : β} {p : α × β} (h : p ∈ alSet l k v) :
    p = (k, v) ∨ (p ∈ l ∧ p.1 ≠ k) := by
  unfold alSet at h
  by_cases ha : l.any (fun q => q.1 = k) = true
  · simp only [ha, if_true] at h
    rcases List.mem_map.mp h with ⟨q, hq, hpq⟩
    by_cases hk : q.1 = k
    · rw [if_pos hk] at hpq
      exact Or.inl hpq.symm
    · rw [if_neg hk] at hpq
      subst hpq
      exact Or.inr ⟨hq, hk⟩
  · simp only [ha, if_false, Bool.false_eq_true] at h
    rcases List.mem_append.mp h with hl | hr
    · refine Or.inr ⟨hl, ?_⟩
      intro hk
      apply ha
      rw [List.any_eq_true]
      exact ⟨p, hl, by simp [hk]⟩
    · exact Or.inl (by simpa using hr)

theorem mem_alDel {α β : Type} [DecidableEq α] {l : List (α × β)} {k : α}
    {p : α × β} (h : p ∈ alDel l k) : p ∈ l ∧ p.1 ≠ k := by
  unfold alDel at h
  have h2 := List.of_mem_filter h
  refine ⟨List.mem_of_mem_filter h, by simpa using h2⟩

theorem alGet_alSet_self {α β : Type} [DecidableEq α] (l : List (α × β))
    (k : α) (v : β) : alGet (alSet l k v) k = some v := by
  unfold alGet alSet
  by_cases ha : l.any (fun q => q.1 = k) = true
  · simp only [ha, if_true]
    induction l with
    | nil => simp at ha
    | cons q t ih =>
      by_cases hk : q.1 = k
      · simp [List.find?, hk]
      · simp only [List.any_cons, Bool.or_eq_true, decide_eq_true_eq] at ha
        rcases ha with hcontra | hta
        · exact absurd hcontra hk
        · simp only [List.map_cons, if_neg hk, List.find?]
          have hd : (decide (q.1 = k)) = false := by simp [hk]
          rw [hd]
          exact ih hta
  · simp only [ha, if_false, Bool.false_eq_true]
    have hall : ∀ q ∈ l, ¬ q.1 = k := by
      intro q hq hk
      apply ha
      rw [List.any_eq_true]
      exact ⟨q, hq, by simp [hk]⟩
    induction l with
    | nil => simp [List.find?]
    | cons q t ih =>
      simp only [List.cons_append, List.find?]
      have hd : (decide (q.1 = k)) = false := by
        simp [hall q (by simp)]
      rw [hd]
      exact ih (by simp [List.any_cons] at ha ⊢; exact ha.2)
        (fun q hq => hall q (by simp [hq]))

theorem run_append (st : ServerState) (a b : List Event) :
    run st (a ++ b) = run (run st a) b := by
  unfold run
  exact List.foldl_append _ _ a b

/-- C1: the claim states that on every token issue (registration, IP
rotation, device-code consumption) the identity's stored token is updated
and the prior token removed, so the delivered token validates and the
prior one does not.  The device-code consumption branch violates this: it
indexes the new token but neither updates the stored `sessionToken` nor
deletes the old index entry, so after the C1 trace the old token `tok1`
still validates and the freshly delivered `tok2` never does. -/
theorem c1_device_login_token_not_rotated :
    Reachable c1state ∧
    alGet c1state.sessionTokens "tok2" = some "uA" ∧
    (alGet c1state.registeredUsers "uA").map (fun u => u.sessionToken) =
      some "tok1" ∧
    (validateSessionTokenStr "tok1" c1state).isSome = true ∧
    validateSessionTokenStr "tok2" c1state = none := by
  exact ⟨⟨c1trace, rfl⟩, by decide, by decide, by decide, by decide⟩

/-- C2 counterexample: in a single process lifetime, identity `uA`
(registered as "mefisto") holds `isAdmin = true`, then after
`POST /admin/clear-users` resets `adminId`, the later-registered identity
`uB` ("Mefisto") also receives `isAdmin = true` — two distinct identities
ever holding admin, refuting the claim. -/
theorem c2_admin_regrant_counterexample :
    Reachable c2stateA ∧
    c2stateB = run c2stateA
      [.clearUsers true, .connect 2 "ip2" none "",
       .setNickname 2 (.str "Mefisto") "uB" "t2" 0 0] ∧
    (alGet c2stateA.registeredUsers "uA").map (fun u => u.isAdmin) =
      some true ∧
    (alGet c2stateB.registeredUsers "uB").map (fun u => u.isAdmin) =
      some true ∧
    ("uA" : String) ≠ "uB" := by
  refine ⟨⟨c2traceA, rfl⟩, ?_, by decide, by decide, by decide⟩
  show run initialState c2traceB = _
  rw [c2traceB, run_append]
  rfl

/-- C3 counterexample: alice resumes her session on two concurrent
connections (sockets 2 and 3); the resume window broadcasts `userJoined`
twice, not once as the claim states, while `userLeft` is correctly
emitted zero times after the first disconnect and once after the second. -/
theorem c3_double_join_counterexample :
    Reachable c3preState ∧
    countUserJoined (runOut c3preState c3resumeEvents).2 = 2 ∧
    countUserLeft (runOut c3bothState [.disconnect 2]).2 = 0 ∧
    countUserLeft (runOut (run c3bothState [.disconnect 2]) [.disconnect 3]).2
      = 1 := by
  exact ⟨⟨c3preTrace, rfl⟩, by decide, by decide, by decide⟩

/-- C4 counterexample: the handlers are not total — a `setNickname` event
whose payload is the number 1 reaches `nickname.toUpperCase()` and throws,
and a `message` event with payload 5 from an attributed sender reaches
`messageText.trim()` and throws; neither handler has a try/catch. -/
theorem c4_nonstring_throws_counterexample :
    Reachable c4demoState ∧
    (step c4demoState (.setNickname 1 (.num 1) "u" "t" 0 0)).threw = true ∧
    Reachable c4msgState ∧
    (step c4msgState (.message 1 (.num 5) "m" 0)).threw = true := by
  refine ⟨⟨[.connect 1 "ip" none ""], rfl⟩, by decide, ?_, by decide⟩
  exact ⟨[.connect 1 "ip" none "",
          .setNickname 1 (.str "bob") "uB" "tB" 0 0], rfl⟩

/-- C10: the 6-character fallback code is produced without a uniqueness
check, so two registered identities (bob and dave) can simultaneously hold
the equal code `AAAAAA`; consuming it attributes the consumer to whichever
identity the linear scan of `validateDeviceCode` reaches first (bob, who
registered earlier). -/
theorem c10_duplicate_device_codes :
    Reachable c10state ∧
    (alGet c10state.registeredUsers "uB").map (fun u => u.deviceCode) =
      some (some "AAAAAA") ∧
    (alGet c10state.registeredUsers "uD").map (fun u => u.deviceCode) =
      some (some "AAAAAA") ∧
    ("uB" : String) ≠ "uD" ∧
    (validateDeviceCode "AAAAAA" c10state).map (fun u => u.id) = some "uB" ∧
    alGet (step c10state
        (.setNickname 4 (.str "AAAAAA") "uE" "tE" 0 0)).state.socketUserId 4 =
      some "uB" := by
  exact ⟨⟨c10trace, rfl⟩, by decide, by decide, by decide, by decide, by decide⟩

/-- C5: the message-moderation gates run in the fixed order
attribution/ban → length → link → mention → duplicate → caps → language,
short-circuiting at the first failing gate: for every string payload the
`message` handler is extensionally equal to the first-failing-gate
machine `moderationSpec`, and in particular the message
"AAAA http://x.io" from an attributed sender is rejected with the link
error, not the all-caps error. -/
theorem c5_gate_order :
    (∀ st sock s oid now,
      step st (.message sock (.str s) oid now) =
        moderationSpec st sock s oid now) ∧
    (step c5demoState (.message 1 (.str "AAAA http://x.io") "m1" 0)).out =
      [.emitTo 1 (.errorMsg "Links are not allowed in chat")] := by
  constructor
  · intro st sock s oid now
    simp only [step, onMessage, moderationSpec]
    cases h1 : alGet st.socketUserId sock with
    | none => rfl
    | some uid =>
      cases h2 : alGet st.users sock with
      | none => rfl
      | some user =>
        by_cases hb : st.bannedUsers.contains uid = true
        · simp only [hb, if_true]
        · simp only [hb, Bool.false_eq_true, if_false, messageGates, gateOrder,
            List.find?, gateFails]
          by_cases hlen : (s = "" || utf16Len (jsTrim s) = 0 ||
              decide (100 < utf16Len s)) = true
          · simp only [hlen, cond_true, gateError]
            by_cases hse : s = ""
            · simp only [hse, if_true, if_pos]
            · simp only [if_neg hse, hlen, if_true]
          · simp only [hlen, cond_false]
            have hse : ¬ s = "" := by
              intro h
              apply hlen
              simp [h]
            simp only [if_neg hse, hlen, Bool.false_eq_true, if_false]
            by_cases hurl : containsUrl (jsTrim s) = true
            · simp only [hurl, cond_true, if_true, gateError]
            · simp only [hurl, cond_false, Bool.false_eq_true, if_false]
              by_cases hmen : containsMention (jsTrim s) = true
              · simp only [hmen, cond_true, if_true, gateError]
              · simp only [hmen, cond_false, Bool.false_eq_true, if_false]
                by_cases hdup : alGet st.userLastMessages uid = some (jsTrim s)
                · simp [hdup, gateError]
                · simp only [if_neg hdup, hdup, decide_eq_true_eq, decide_False,
                    cond_false, if_false, iff_false]
                  by_cases hcaps : isCapsShout (jsTrim s) = true
                  · simp [hdup, hcaps, gateError]
                  · simp only [hcaps, cond_false, Bool.false_eq_true, if_false]
                    by_cases hlang : hasNonEnglish (jsTrim s) = true
                    · simp [hdup, hcaps, hlang, gateError]
                    · simp [hdup, hcaps, hlang]
  · decide

/-- C6 counterexample: alice registered on socket 2 (plain registration
never records the socket in `userSessions`), so the admin's ban left her
connection alive; her next `message` event is answered with `banned` but
no forced disconnect follows, refuting the claim that every `banned`
notification terminates the connection. -/
theorem c6_banned_without_disconnect_counterexample :
    Reachable c6state ∧
    c6state.bannedUsers = ["uA"] ∧
    c6state.allConnections.contains 2 = true ∧
    (step c6state (.message 2 (.str "hi") "m" 0)).out =
      [.emitTo 2 .banned] ∧
    disconnectedSock (step c6state (.message 2 (.str "hi") "m" 0)).out 2 =
      false := by
  refine ⟨?_, by decide, by decide, by decide, by decide⟩
  exact ⟨[.connect 1 "ipA" none "", .setNickname 1 (.str "mefisto") "uM" "tM" 0 0,
          .connect 2 "ipB" none "", .setNickname 2 (.str "alice") "uA" "tA" 0 0,
          .banUser 1 (.str "uA")], rfl⟩

/-- C7 counterexample: after the ban of user `AB12` put "ab12" into the
banned-nicknames set, a new connection submitting the same nickname is
not rejected with NicknameTaken — because carol's live device code `AB12`
captures the input, the call becomes a device-code login for carol. -/
theorem c7_banned_nickname_device_login_counterexample :
    Reachable c7state ∧
    c7state.bannedNicknames = ["ab12"] ∧
    isNicknameAvailable "AB12" c7state = false ∧
    (step c7state (.setNickname 4 (.str "AB12") "uD" "tD" 0 0)).out =
      [.emitTo 4 (.nicknameAccepted "uC" "carol" 0 false none "tD" false true),
       .emitTo 4 (.messageHistory []),
       .broadcast (.userJoined "carol" 3)] ∧
    hasErrorOut (step c7state (.setNickname 4 (.str "AB12") "uD" "tD" 0 0)).out
      = false := by
  refine ⟨?_, by decide, by decide, by decide, by decide⟩
  exact ⟨[.connect 1 "ipM" none "", .setNickname 1 (.str "mefisto") "uM" "tM" 0 0,
          .connect 2 "ipB" none "", .setNickname 2 (.str "AB12") "uB" "tB" 0 0,
          .connect 3 "ipC" none "", .setNickname 3 (.str "carol") "uC" "tC" 0 0,
          .genDeviceCode 3 (fun _ => "AB12"),
          .banUser 1 (.str "uB")], rfl⟩

/-- C8 counterexample: with one registered user holding code `AAAA` and a
draw stream that always produces `AAAA`, all 100 attempts collide and the
returned fallback `AAAAAA` has 6 characters — not 8 as the claim states,
and not a fresh 4-character code either. -/
theorem c8_fallback_length_counterexample :
    generateUniqueDeviceCode (fun _ => "AAAA") c8regs = "AAAAAA" ∧
    (generateUniqueDeviceCode (fun _ => "AAAA") c8regs).data.length = 6 ∧
    deviceCodeTaken c8regs "AAAA" = true := by
  exact ⟨by decide, by decide, by decide⟩

/-- C8 amended: every code `generateUniqueDeviceCode` returns is either a
fresh (non-colliding) 4-character code over A-Z0-9 chosen within the 100
collision-checked attempts, or the 6-character fallback (4 + 2 characters)
— not an 8-character one. -/
theorem c8_device_code_amended :
    ∀ (draw : Nat → String) (regs : List RegUser), DrawsWellFormed draw →
    ((generateUniqueDeviceCode draw regs).data.length = 4 ∧
     deviceCodeTaken regs (generateUniqueDeviceCode draw regs) = false ∧
     codeAlphaOk (generateUniqueDeviceCode draw regs) = true) ∨
    ((generateUniqueDeviceCode draw regs).data.length = 6 ∧
     codeAlphaOk (generateUniqueDeviceCode draw regs) = true) := by
  intro draw regs hwf
  unfold generateUniqueDeviceCode
  have key : ∀ fuel i,
      ((genDeviceCodeAux draw regs i fuel).data.length = 4 ∧
       deviceCodeTaken regs (genDeviceCodeAux draw regs i fuel) = false ∧
       codeAlphaOk (genDeviceCodeAux draw regs i fuel) = true) ∨
      ((genDeviceCodeAux draw regs i fuel).data.length = 6 ∧
       codeAlphaOk (genDeviceCodeAux draw regs i fuel) = true) := by
    intro fuel
    induction fuel with
    | zero =>
      intro i
      right
      simp only [genDeviceCodeAux]
      have h1 := (hwf (i + 1)).1
      have h2 := (hwf (i + 2)).1
      have halpha1 := (hwf (i + 1)).2
      have halpha2 := (hwf (i + 2)).2
      unfold codeAlphaOk at halpha1 halpha2 ⊢
      constructor
      · rw [String.data_append, List.length_append, h1]
        show 4 + ((draw (i + 2)).data.take 2).length = 6
        rw [List.length_take, h2]
        decide
      · rw [String.data_append, List.all_append, Bool.and_eq_true]
        refine ⟨halpha1, ?_⟩
        show ((draw (i + 2)).data.take 2).all _ = true
        rw [List.all_eq_true]
        intro c hc
        exact List.all_eq_true.mp halpha2 c (List.mem_of_mem_take hc)
    | succ f ih =>
      intro i
      simp only [genDeviceCodeAux]
      by_cases hc : deviceCodeTaken regs (draw i) = true
      · rw [if_pos hc]
        exact ih (i + 1)
      · have hc' : deviceCodeTaken regs (draw i) = false := by
          cases h : deviceCodeTaken regs (draw i)
          · rfl
          · exact absurd h hc
        rw [if_neg hc]
        exact Or.inl ⟨(hwf i).1, hc', (hwf i).2⟩
  exact key 100 0

/-- Witness for the C8 amended theorem at a concrete draw stream and an
empty registry. -/
theorem c8_device_code_amended_witness :
    ((generateUniqueDeviceCode (fun _ => "BCD1") ([] : List RegUser)).data.length = 4 ∧
     deviceCodeTaken ([] : List RegUser)
       (generateUniqueDeviceCode (fun _ => "BCD1") ([] : List RegUser)) = false ∧
     codeAlphaOk (generateUniqueDeviceCode (fun _ => "BCD1") ([] : List RegUser)) = true) ∨
    ((generateUniqueDeviceCode (fun _ => "BCD1") ([] : List RegUser)).data.length = 6 ∧
     codeAlphaOk (generateUniqueDeviceCode (fun _ => "BCD1") ([] : List RegUser)) = true) :=
  c8_device_code_amended (fun _ => "BCD1") ([] : List RegUser)
    (fun _ => ⟨rfl, rfl⟩)

/-- C3 amended: (1) every successful `rejoin` broadcasts exactly one
`userJoined`, regardless of how many live connections the identity
already has — so a second concurrent resume produces a second
`userJoined`; (2) `disconnect` broadcasts `userLeft` exactly when the
disconnecting socket was the identity's last tracked session (one
`userLeft` after both connections disconnect, none before). -/
theorem c3_presence_amended :
    (∀ (st : ServerState) (sock : Nat) (tok tok2 : String) (now : Int)
       (u : RegUser),
      st.bannedIPs.contains (socketIpOf st sock) = false →
      socketFpBanned st sock = false →
      validateSessionTokenStr tok st = some u →
      st.bannedUsers.contains u.id = false →
      countUserJoined
        (step st (.rejoin sock (.objTok (.str tok)) tok2 now)).out = 1) ∧
    (∀ (st : ServerState) (sock : Nat) (uid : String) (au : ActiveUser)
       (socks : List Nat),
      alGet st.socketUserId sock = some uid →
      alGet st.users sock = some au →
      alGet st.userSessions uid = some socks →
      countUserLeft (step st (.disconnect sock)).out =
        (if setDel socks sock = [] then 1 else 0)) := by
  constructor
  · intro st sock tok tok2 now u hip hfp hval hban
    have htok : tok ≠ "" := by
      intro h
      rw [h] at hval
      simp [validateSessionTokenStr] at hval
    simp only [step, onRejoin, hip, Bool.false_eq_true, if_false,
      hfp, jsSessionTokenField, jsTruthy, jsValidateSessionToken, hval]
    rw [if_neg (by simp [htok])]
    simp only [hban, Bool.false_eq_true, if_false]
    simp [rejoinSuccess, countUserJoined]
  · intro st sock uid au socks h1 h2 h3
    simp only [step, onDisconnect, h1, h2, h3]
    by_cases hempty : setDel socks sock = []
    · rw [if_pos hempty, if_pos hempty]
      simp [countUserLeft]
    · rw [if_neg hempty, if_neg hempty]
      simp [countUserLeft]

/-- Witness for the C3 amended theorem on the concrete two-connection
resume state. -/
theorem c3_presence_amended_witness :
    countUserJoined
      (step c3bothState (.rejoin 4 (.objTok (.str "t1")) "tZ" 0)).out = 1 ∧
    countUserLeft (step c3bothState (.disconnect 2)).out =
      (if setDel [2, 3] 2 = ([] : List Nat) then 1 else 0) := by
  constructor
  · exact c3_presence_amended.1 c3bothState 4 "t1" "tZ" 0
      { id := "uA", nickname := "alice", avatarHue := 0, isAdmin := false,
        ip := "ip", sessionToken := "t1", deviceCode := none }
      (by decide) (by decide) (by decide) (by decide)
  · exact c3_presence_amended.2 c3bothState 2 "uA"
      { id := "uA", nickname := "alice", socketId := 2, avatarHue := 0,
        joinedAt := 0, isAdmin := false, ip := "ip" }
      [2, 3] (by decide) (by decide) (by decide)

theorem connectBannedDisconnects : ∀ (st : ServerState) (sock : Nat)
    (ip : String) (ct : Option String) (ot : String),
    bannedEmittedTo (step st (.connect sock ip ct ot)).out sock = true →
    disconnectedSock (step st (.connect sock ip ct ot)).out sock = true := by
  intro st sock ip ct ot h
  simp only [step, onConnect] at h ⊢
  repeat' split at h
  all_goals simp_all [bannedEmittedTo, disconnectedSock]

theorem fingerprintBannedDisconnects : ∀ (st : ServerState) (sock : Nat)
    (p : JSValue),
    bannedEmittedTo (step st (.setFingerprint sock p)).out sock = true →
    disconnectedSock (step st (.setFingerprint sock p)).out sock = true := by
  intro st sock p h
  simp only [step, onSetFingerprint] at h ⊢
  repeat' split at h
  all_goals simp_all [bannedEmittedTo, disconnectedSock]

theorem messageNeverDisconnects : ∀ (st : ServerState) (sock s' : Nat)
    (p : JSValue) (om : String) (now : Int),
    disconnectedSock (step st (.message sock p om now)).out s' = false := by
  intro st sock s' p om now
  simp only [step, onMessage, messageGates]
  repeat' split
  all_goals simp [disconnectedSock]

theorem foldrBanOuts_mem (conns : List Nat) (s' : Nat) :
    ∀ socks : List Nat,
    Out.emitTo s' .banned ∈ socks.foldr (fun ss acc =>
      (if conns.contains ss = true then
         [Out.emitTo ss .banned, Out.disconnectSock ss]
       else []) ++ acc) [] →
    Out.disconnectSock s' ∈ socks.foldr (fun ss acc =>
      (if conns.contains ss = true then
         [Out.emitTo ss .banned, Out.disconnectSock ss]
       else []) ++ acc) [] := by
  intro socks
  induction socks with
  | nil => intro h; simp at h
  | cons ss t ih =>
    intro h
    simp only [List.foldr_cons] at h ⊢
    rcases List.mem_append.mp h with h1 | h1
    · by_cases hconn : conns.contains ss = true
      · rw [if_pos hconn] at h1 ⊢
        simp only [List.mem_cons, List.not_mem_nil, or_false] at h1
        rcases h1 with h1 | h1
        · injection h1 with ha hb
          subst ha
          simp
        · exact absurd h1 (by simp)
      · rw [if_neg hconn] at h1
        simp at h1
    · by_cases hconn : conns.contains ss = true
      · rw [if_pos hconn]
        exact List.mem_append.mpr (Or.inr (ih h1))
      · rw [if_neg hconn]
        exact List.mem_append.mpr (Or.inr (ih h1))

theorem banUserBannedDisconnects : ∀ (st : ServerState) (sock s' : Nat) (p : JSValue),
    bannedEmittedTo (step st (.banUser sock p)).out s' = true →
    disconnectedSock (step st (.banUser sock p)).out s' = true := by
  intro st sock s' p h
  simp only [step, onBanUser] at h ⊢
  repeat' split at h
  all_goals try simp_all [bannedEmittedTo, disconnectedSock]
  all_goals {
    simp only [banCascade] at h ⊢
    simp only [List.mem_append] at h ⊢
    rcases h with (h | h) | h
    · exfalso
      rcases List.mem_map.mp h with ⟨m, _, hm⟩
      exact Out.noConfusion hm
    · refine Or.inl (Or.inr ?_)
      rcases halg : alGet st.userSessions _ with _ | socks
      · simp [halg] at h
      · first
        | exact foldrBanOuts_mem st.allConnections s' socks h
        | (rw [halg] at h
           exact foldrBanOuts_mem st.allConnections s' socks h)
    · exfalso
      simp at h
  }

theorem rejoinBannedBehavior : ∀ (st : ServerState) (sock : Nat) (p : JSValue) (ot : String)
    (now : Int),
    (st.bannedIPs.contains (socketIpOf st sock) = true →
      bannedEmittedTo (step st (.rejoin sock p ot now)).out sock = true ∧
      disconnectedSock (step st (.rejoin sock p ot now)).out sock = true) ∧
    (st.bannedIPs.contains (socketIpOf st sock) = false →
      socketFpBanned st sock = false →
      ∀ s', disconnectedSock (step st (.rejoin sock p ot now)).out s' = false) := by
  intro st sock p ot now
  constructor
  · intro hip
    simp only [step, onRejoin]
    rw [if_pos hip]
    simp [bannedEmittedTo, disconnectedSock]
  · intro hip hfp s'
    simp only [step, onRejoin]
    rw [if_neg (by rw [hip]; exact Bool.false_ne_true),
        if_neg (by rw [hfp]; exact Bool.false_ne_true)]
    repeat' split
    all_goals simp [disconnectedSock, rejoinSuccess]

theorem setNicknameBannedBehavior : ∀ (st : ServerState) (sock : Nat) (p : JSValue)
    (ou ot : String) (oh : Nat) (now : Int),
    (st.bannedIPs.contains (socketIpOf st sock) = true →
      bannedEmittedTo (step st (.setNickname sock p ou ot oh now)).out sock
        = true ∧
      disconnectedSock (step st (.setNickname sock p ou ot oh now)).out sock
        = true) ∧
    (st.bannedIPs.contains (socketIpOf st sock) = false →
      socketFpBanned st sock = false →
      ∀ s', disconnectedSock
        (step st (.setNickname sock p ou ot oh now)).out s' = false) := by
  intro st sock p ou ot oh now
  constructor
  · intro hip
    simp only [step, onSetNickname]
    rw [if_pos hip]
    simp [bannedEmittedTo, disconnectedSock]
  · intro hip hfp s'
    simp only [step, onSetNickname]
    rw [if_neg (by rw [hip]; exact Bool.false_ne_true),
        if_neg (by rw [hfp]; exact Bool.false_ne_true)]
    repeat' split
    all_goals simp [disconnectedSock, deviceLoginBranch, registrationBranch]
    all_goals repeat' split
    all_goals simp [disconnectedSock]

/-- C6 amended: the banned notices of the connect handler, the
fingerprint handler, and the ban cascade are always followed by a forced
disconnect of the notified connection, and rejoin/setNickname disconnect
when the banned-IP check fires; but the `message` handler never
disconnects anyone (its banned-user notice is not followed by a
disconnect), and when the IP and fingerprint checks pass, rejoin and
setNickname never disconnect either — their banned-user notices leave
the connection open. -/
theorem c6_banned_disconnect_amended :
    (∀ (st : ServerState) (sock : Nat) (ip : String) (ct : Option String)
       (ot : String),
      bannedEmittedTo (step st (.connect sock ip ct ot)).out sock = true →
      disconnectedSock (step st (.connect sock ip ct ot)).out sock = true) ∧
    (∀ (st : ServerState) (sock : Nat) (p : JSValue),
      bannedEmittedTo (step st (.setFingerprint sock p)).out sock = true →
      disconnectedSock (step st (.setFingerprint sock p)).out sock = true) ∧
    (∀ (st : ServerState) (sock s' : Nat) (p : JSValue) (om : String)
       (now : Int),
      disconnectedSock (step st (.message sock p om now)).out s' = false) ∧
    (∀ (st : ServerState) (sock s' : Nat) (p : JSValue),
      bannedEmittedTo (step st (.banUser sock p)).out s' = true →
      disconnectedSock (step st (.banUser sock p)).out s' = true) ∧
    (∀ (st : ServerState) (sock : Nat) (p : JSValue) (ot : String)
       (now : Int),
      (st.bannedIPs.contains (socketIpOf st sock) = true →
        bannedEmittedTo (step st (.rejoin sock p ot now)).out sock = true ∧
        disconnectedSock (step st (.rejoin sock p ot now)).out sock = true) ∧
      (st.bannedIPs.contains (socketIpOf st sock) = false →
        socketFpBanned st sock = false →
        ∀ s', disconnectedSock (step st (.rejoin sock p ot now)).out s'
          = false)) ∧
    (∀ (st : ServerState) (sock : Nat) (p : JSValue) (ou ot : String)
       (oh : Nat) (now : Int),
      (st.bannedIPs.contains (socketIpOf st sock) = true →
        bannedEmittedTo
          (step st (.setNickname sock p ou ot oh now)).out sock = true ∧
        disconnectedSock
          (step st (.setNickname sock p ou ot oh now)).out sock = true) ∧
      (st.bannedIPs.contains (socketIpOf st sock) = false →
        socketFpBanned st sock = false →
        ∀ s', disconnectedSock
          (step st (.setNickname sock p ou ot oh now)).out s' = false)) :=
  ⟨connectBannedDisconnects, fingerprintBannedDisconnects,
   messageNeverDisconnects, banUserBannedDisconnects,
   rejoinBannedBehavior, setNicknameBannedBehavior⟩

/-- Witness for the C6 amended theorem: a connect from a banned IP is
disconnected. -/
theorem c6_banned_disconnect_amended_witness :
    disconnectedSock (step c6ipState (.connect 5 "1.2.3.4" none "")).out 5
      = true :=
  c6_banned_disconnect_amended.1 c6ipState 5 "1.2.3.4" none "" (by decide)

theorem setAdd_contains_self {α : Type} [DecidableEq α] (l : List α) (a : α) :
    (setAdd l a).contains a = true := by
  unfold setAdd
  by_cases h : l.contains a = true
  · rw [if_pos h]
    exact h
  · rw [if_neg h]
    simp

theorem foldrBanOuts_filter (conns : List Nat) :
    ∀ socks : List Nat,
    (socks.foldr (fun ss acc =>
      (if conns.contains ss = true then
         [Out.emitTo ss .banned, Out.disconnectSock ss]
       else []) ++ acc) []).filter
      (fun o => match o with
        | Out.broadcast (.messageDeleted _) => true
        | _ => false) = [] := by
  intro socks
  induction socks with
  | nil => rfl
  | cons ss t ih =>
    simp only [List.foldr_cons, List.filter_append, ih, List.append_nil]
    by_cases hconn : conns.contains ss = true
    · rw [if_pos hconn]
      rfl
    · rw [if_neg hconn]
      rfl

theorem banCascadeProps : ∀ (st : ServerState) (sock : Nat)
    (a target : String) (tdata : RegUser),
    alGet st.socketUserId sock = some a →
    st.adminId = some a →
    alGet st.registeredUsers target = some tdata →
    target ≠ a →
    (step st (.banUser sock (.str target))).state.messages =
      st.messages.filter (fun m => ¬ m.userId = target) ∧
    ((step st (.banUser sock (.str target))).out.filter (fun o =>
        match o with
        | .broadcast (.messageDeleted _) => true
        | _ => false)).length =
      (st.messages.filter (fun m => m.userId = target)).length ∧
    (∀ m ∈ st.messages, m.userId = target →
      Out.broadcast (.messageDeleted m.id) ∈
        (step st (.banUser sock (.str target))).out) ∧
    (step st (.banUser sock (.str target))).state.bannedNicknames.contains
      (asciiLower tdata.nickname) = true := by
  intro st sock a target tdata hsid hadm hreg hne
  have hradm : (match alGet st.socketUserId sock, st.adminId with
      | some u, some a => decide (u = a)
      | _, _ => false) = true := by
    rw [hsid, hadm]
    simp
  have hnotself : ¬ st.adminId = some target := by
    rw [hadm]
    intro hcontra
    exact hne (Option.some.injEq _ _ ▸ hcontra).symm
  simp only [step, onBanUser, hradm, hreg]
  rw [if_neg (by simp)]
  rw [if_neg hnotself]
  simp only [banCascade]
  have hfilterEq : (List.filter (fun o =>
      match o with
      | Out.broadcast (.messageDeleted _) => true
      | _ => false)
      ((st.messages.filter (fun m => m.userId = target)).reverse.map
        (fun m => Out.broadcast (.messageDeleted m.id)))) =
      ((st.messages.filter (fun m => m.userId = target)).reverse.map
        (fun m => Out.broadcast (.messageDeleted m.id))) := by
    rw [List.filter_eq_self]
    intro o ho
    rcases List.mem_map.mp ho with ⟨m, _, hm⟩
    rw [← hm]
  refine ⟨trivial, ?_, ?_, ?_⟩
  · rw [List.filter_append, List.filter_append, hfilterEq]
    rcases halg : alGet st.userSessions target with _ | socks
    · simp
    · rw [foldrBanOuts_filter st.allConnections socks]
      simp
  · intro m hm hmt
    refine List.mem_append.mpr (Or.inl (List.mem_append.mpr (Or.inl ?_)))
    exact List.mem_map.mpr ⟨m, List.mem_reverse.mpr
      (List.mem_filter.mpr ⟨hm, by simp [hmt]⟩), rfl⟩
  · exact setAdd_contains_self _ _

theorem bannedNicknameBlocked : ∀ (st : ServerState) (sock : Nat)
    (nick ou ot : String) (oh : Nat) (now : Int),
    st.bannedIPs.contains (socketIpOf st sock) = false →
    socketFpBanned st sock = false →
    (deviceCodeShape (asciiUpper nick) = true →
      validateDeviceCode (asciiUpper nick) st = none) →
    3 ≤ utf16Len (jsTrim nick) →
    utf16Len nick ≤ 20 →
    englishOnlyTest nick = true →
    st.bannedNicknames.contains (asciiLower nick) = true →
    (step st (.setNickname sock (.str nick) ou ot oh now)).out =
      [.emitTo sock (.errorMsg "Nickname already taken")] ∧
    (step st (.setNickname sock (.str nick) ou ot oh now)).state = st := by
  intro st sock nick ou ot oh now hip hfp hnocode hmin hmax heng hban
  have hne : nick ≠ "" := by
    intro h
    rw [h] at heng
    simp [englishOnlyTest] at heng
  have hreg : registrationBranch st sock nick ou ot oh now
      (socketIpOf st sock) =
      { state := st, out := [.emitTo sock (.errorMsg "Nickname already taken")],
        threw := false } := by
    unfold registrationBranch
    rw [if_neg (by simp [hne]; omega)]
    rw [if_neg (by simp [heng])]
    rw [if_pos]
    unfold isNicknameAvailable
    rw [if_pos hban]
    simp
  simp only [step, onSetNickname]
  rw [if_neg (by rw [hip]; exact Bool.false_ne_true),
      if_neg (by rw [hfp]; exact Bool.false_ne_true)]
  rw [if_pos (by simp [jsTruthy, hne])]
  by_cases hshape : deviceCodeShape (asciiUpper nick) = true
  · rw [hnocode hshape] at *
    simp only [hshape, if_true, hnocode hshape, hreg]
    constructor <;> trivial
  · simp only [hshape, Bool.false_eq_true, if_false, hreg]
    constructor <;> trivial

/-- C7 amended: an admin ban of a registered non-admin target removes
exactly the target's messages from the log, broadcasts one
`messageDeleted` per removed message (one broadcast per message id, and
the number of `messageDeleted` broadcasts equals the number of removed
messages), and adds the target's lowercase nickname to the banned set;
afterwards any `setNickname` whose (shape-valid) input is that nickname in
any case fails with "Nickname already taken" and leaves the state
unchanged — provided the uppercased input does not currently match a live
device code, in which case the call is diverted into device-code login. -/
theorem c7_ban_cascade_amended :
    (∀ (st : ServerState) (sock : Nat) (a target : String) (tdata : RegUser),
      alGet st.socketUserId sock = some a →
      st.adminId = some a →
      alGet st.registeredUsers target = some tdata →
      target ≠ a →
      (step st (.banUser sock (.str target))).state.messages =
        st.messages.filter (fun m => ¬ m.userId = target) ∧
      ((step st (.banUser sock (.str target))).out.filter (fun o =>
          match o with
          | .broadcast (.messageDeleted _) => true
          | _ => false)).length =
        (st.messages.filter (fun m => m.userId = target)).length ∧
      (∀ m ∈ st.messages, m.userId = target →
        Out.broadcast (.messageDeleted m.id) ∈
          (step st (.banUser sock (.str target))).out) ∧
      (step st (.banUser sock (.str target))).state.bannedNicknames.contains
        (asciiLower tdata.nickname) = true) ∧
    (∀ (st : ServerState) (sock : Nat) (nick ou ot : String) (oh : Nat)
       (now : Int),
      st.bannedIPs.contains (socketIpOf st sock) = false →
      socketFpBanned st sock = false →
      (deviceCodeShape (asciiUpper nick) = true →
        validateDeviceCode (asciiUpper nick) st = none) →
      3 ≤ utf16Len (jsTrim nick) →
      utf16Len nick ≤ 20 →
      englishOnlyTest nick = true →
      st.bannedNicknames.contains (asciiLower nick) = true →
      (step st (.setNickname sock (.str nick) ou ot oh now)).out =
        [.emitTo sock (.errorMsg "Nickname already taken")] ∧
      (step st (.setNickname sock (.str nick) ou ot oh now)).state = st) :=
  ⟨banCascadeProps, bannedNicknameBlocked⟩

/-- Witness for the C7 amended theorem: the concrete ban of `uB` blocks
nickname "AB12", and submitting "AB12" against a state with no matching
live code is rejected with NicknameTaken. -/
theorem c7_ban_cascade_amended_witness :
    (step c7preState (.banUser 1 (.str "uB"))).state.bannedNicknames.contains
      (asciiLower "AB12") = true ∧
    (step c7nickState (.setNickname 9 (.str "AB12") "uZ" "tZ" 0 0)).out =
      [.emitTo 9 (.errorMsg "Nickname already taken")] := by
  constructor
  · exact (c7_ban_cascade_amended.1 c7preState 1 "uM" "uB"
      { id := "uB", nickname := "AB12", avatarHue := 0, isAdmin := false,
        ip := "ipB", sessionToken := "tB", deviceCode := none }
      (by decide) (by decide) (by decide) (by decide)).2.2.2
  · exact (c7_ban_cascade_amended.2 c7nickState 9 "AB12" "uZ" "tZ" 0 0
      (by decide) (by decide) (fun _ => by decide) (by decide) (by decide)
      (by decide) (by decide)).1

theorem validateSessionTokenStr_mem {tok : String} {st : ServerState}
    {u : RegUser} (h : validateSessionTokenStr tok st = some u) :
    ∃ k, (k, u) ∈ st.registeredUsers := by
  unfold validateSessionTokenStr at h
  by_cases he : tok = ""
  · rw [if_pos he] at h
    cases h
  · rw [if_neg he] at h
    cases hg : alGet st.sessionTokens tok with
    | none =>
      simp only [hg] at h
      cases h
    | some uid =>
      simp only [hg] at h
      cases hr : alGet st.registeredUsers uid with
      | none =>
        simp only [hr] at h
        cases h
      | some user =>
        simp only [hr] at h
        by_cases ht : user.sessionToken = tok
        · rw [if_pos ht] at h
          injection h with h
          subst h
          exact ⟨uid, alGet_mem hr⟩
        · rw [if_neg ht] at h
          cases h

theorem validateDeviceCode_mem {code : String} {st : ServerState}
    {u : RegUser} (h : validateDeviceCode code st = some u) :
    ∃ k, (k, u) ∈ st.registeredUsers := by
  unfold validateDeviceCode at h
  by_cases he : code = ""
  · rw [if_pos he] at h
    cases h
  · rw [if_neg he] at h
    cases hf : st.registeredUsers.find? (fun p => p.2.deviceCode = some code) with
    | none =>
      simp only [hf] at h
      cases h
    | some q =>
      simp only [hf] at h
      have hq : q.2 = u := by simpa using h
      subst hq
      exact ⟨q.1, by simpa using List.mem_of_find?_eq_some hf⟩

theorem invPair_alSet {regs : List (String × RegUser)}
    {adminId : Option String} (u u' : RegUser) (k : String)
    (hmem : (k, u) ∈ regs)
    (hinv1 : ∀ p ∈ regs, p.2.id = p.1)
    (hinv2 : ∀ p ∈ regs, p.2.isAdmin = true → adminId = some p.1)
    (hid : u'.id = u.id) (hadm : u'.isAdmin = u.isAdmin) :
    (∀ p ∈ alSet regs u.id u', p.2.id = p.1) ∧
    (∀ p ∈ alSet regs u.id u', p.2.isAdmin = true → adminId = some p.1) := by
  have hku : u.id = k := hinv1 (k, u) hmem
  constructor
  · intro p hp
    rcases mem_alSet hp with hnew | ⟨hold, _⟩
    · subst hnew
      simpa using hid
    · exact hinv1 p hold
  · intro p hp hadmp
    rcases mem_alSet hp with hnew | ⟨hold, _⟩
    · subst hnew
      simp only at hadmp
      have : u.isAdmin = true := hadm ▸ hadmp
      have h2 := hinv2 (k, u) hmem this
      simpa [hku] using h2
    · exact hinv2 p hold hadmp

theorem invPair_alDel {regs : List (String × RegUser)}
    {adminId : Option String} {t : String}
    (hinv1 : ∀ p ∈ regs, p.2.id = p.1)
    (hinv2 : ∀ p ∈ regs, p.2.isAdmin = true → adminId = some p.1) :
    (∀ p ∈ alDel regs t, p.2.id = p.1) ∧
    (∀ p ∈ alDel regs t, p.2.isAdmin = true → adminId = some p.1) := by
  constructor
  · intro p hp
    exact hinv1 p (mem_alDel hp).1
  · intro p hp
    exact hinv2 p (mem_alDel hp).1

theorem jsValidateSessionToken_mem {v : JSValue} {st : ServerState}
    {u : RegUser} (h : jsValidateSessionToken v st = some u) :
    ∃ k, (k, u) ∈ st.registeredUsers := by
  cases v with
  | str s => exact validateSessionTokenStr_mem h
  | num n => cases h
  | boolv b => cases h
  | nullv => cases h
  | undef => cases h
  | objEmpty => cases h
  | objTok w => cases h

theorem invPair_register {regs : List (String × RegUser)}
    {adminId : Option String} (oUserId : String) (newU : RegUser)
    (hinv1 : ∀ p ∈ regs, p.2.id = p.1)
    (hinv2 : ∀ p ∈ regs, p.2.isAdmin = true → adminId = some p.1)
    (hid : newU.id = oUserId)
    (hfresh : newU.isAdmin = true → adminId = none) :
    (∀ p ∈ alSet regs oUserId newU, p.2.id = p.1) ∧
    (∀ p ∈ alSet regs oUserId newU, p.2.isAdmin = true →
      (if newU.isAdmin then some oUserId else adminId) = some p.1) := by
  constructor
  · intro p hp
    rcases mem_alSet hp with hnew | ⟨hold, _⟩
    · subst hnew
      simpa using hid
    · exact hinv1 p hold
  · intro p hp hadmp
    rcases mem_alSet hp with hnew | ⟨hold, _⟩
    · subst hnew
      simp only at hadmp
      rw [if_pos hadmp]
    · have hold2 := hinv2 p hold hadmp
      by_cases hna : newU.isAdmin = true
      · rw [hfresh hna] at hold2
        cases hold2
      · rw [if_neg hna]
        exact hold2

theorem rejoinSuccess_registryInv {st : ServerState} {sock : Nat}
    {user : RegUser} {ot : String} {now : Int} {ip : String} {k : String}
    (hk : (k, user) ∈ st.registeredUsers)
    (h1 : ∀ p ∈ st.registeredUsers, p.2.id = p.1)
    (h2 : ∀ p ∈ st.registeredUsers, p.2.isAdmin = true →
      st.adminId = some p.1) :
    RegistryInv (rejoinSuccess st sock user ot now ip).state := by
  unfold rejoinSuccess
  by_cases hrot : user.ip ≠ ip
  · simp only [if_pos hrot]
    exact ⟨(invPair_alSet user { user with ip := ip, sessionToken := ot }
              k hk h1 h2 rfl rfl).1,
           (invPair_alSet user { user with ip := ip, sessionToken := ot }
              k hk h1 h2 rfl rfl).2⟩
  · simp only [if_neg hrot]
    exact ⟨h1, h2⟩

theorem registrationInvPreserved {st : ServerState} {sock : Nat} {s : String}
    {ou ot : String} {oh : Nat} {now : Int} {ip : String}
    (h1 : ∀ p ∈ st.registeredUsers, p.2.id = p.1)
    (h2 : ∀ p ∈ st.registeredUsers, p.2.isAdmin = true →
      st.adminId = some p.1) :
    RegistryInv (registrationBranch st sock s ou ot oh now ip).state := by
  unfold registrationBranch
  split
  · exact ⟨h1, h2⟩
  · split
    · exact ⟨h1, h2⟩
    · split
      · exact ⟨h1, h2⟩
      · have hfresh : (st.adminId.isNone &&
            decide (asciiLower s = "mefisto")) = true → st.adminId = none := by
          intro hx
          have hx2 : st.adminId.isNone = true ∧ asciiLower s = "mefisto" := by
            simpa using hx
          exact Option.isNone_iff_eq_none.mp hx2.1
        exact ⟨(invPair_register ou
                  { id := ou, nickname := s, avatarHue := oh,
                    isAdmin := st.adminId.isNone &&
                      decide (asciiLower s = "mefisto"),
                    ip := ip, sessionToken := ot, deviceCode := none }
                  h1 h2 rfl hfresh).1,
               (invPair_register ou
                  { id := ou, nickname := s, avatarHue := oh,
                    isAdmin := st.adminId.isNone &&
                      decide (asciiLower s = "mefisto"),
                    ip := ip, sessionToken := ot, deviceCode := none }
                  h1 h2 rfl hfresh).2⟩

theorem registryInv_step (st : ServerState) (e : Event)
    (h : RegistryInv st) : RegistryInv (step st e).state := by
  obtain ⟨h1, h2⟩ := h
  cases e with
  | setFingerprint sock p =>
    simp only [step, onSetFingerprint]
    repeat' split
    all_goals exact ⟨h1, h2⟩
  | message sock p om now =>
    simp only [step, onMessage, messageGates]
    repeat' split
    all_goals exact ⟨h1, h2⟩
  | disconnect sock =>
    simp only [step, onDisconnect]
    repeat' split
    all_goals exact ⟨h1, h2⟩
  | clearBans k =>
    simp only [step, onClearBans]
    repeat' split
    all_goals exact ⟨h1, h2⟩
  | unbanIp k ip =>
    simp only [step, onUnbanIp]
    repeat' split
    all_goals exact ⟨h1, h2⟩
  | clearUsers k =>
    simp only [step, onClearUsers]
    split
    · exact ⟨fun p hp => by simp at hp, fun p hp => by simp at hp⟩
    · exact ⟨h1, h2⟩
  | connect sock ip ct ot =>
    simp only [step, onConnect]
    by_cases hip : st.bannedIPs.contains ip = true
    · rw [if_pos hip]
      exact ⟨h1, h2⟩
    · rw [if_neg hip]
      split
      · exact ⟨h1, h2⟩
      · split
        · exact ⟨h1, h2⟩
        · rename_i user hv
          by_cases hbu : st.bannedUsers.contains user.id = true
          · rw [if_pos hbu]
            exact ⟨h1, h2⟩
          · rw [if_neg hbu]
            by_cases hrot : user.ip ≠ ip
            · rw [if_pos hrot]
              obtain ⟨k, hk⟩ := validateSessionTokenStr_mem hv
              exact ⟨(invPair_alSet user { user with ip := ip, sessionToken := ot }
                        k hk h1 h2 rfl rfl).1,
                     (invPair_alSet user { user with ip := ip, sessionToken := ot }
                        k hk h1 h2 rfl rfl).2⟩
            · rw [if_neg hrot]
              exact ⟨h1, h2⟩
  | rejoin sock p ot now =>
    simp only [step, onRejoin]
    by_cases hip : st.bannedIPs.contains (socketIpOf st sock) = true
    · rw [if_pos hip]
      exact ⟨h1, h2⟩
    · rw [if_neg hip]
      by_cases hfp : socketFpBanned st sock = true
      · rw [if_pos hfp]
        exact ⟨h1, h2⟩
      · rw [if_neg hfp]
        split
        · exact ⟨h1, h2⟩
        · split
          · exact ⟨h1, h2⟩
          · rename_i user hv
            by_cases hbu : st.bannedUsers.contains user.id = true
            · rw [if_pos hbu]
              exact ⟨h1, h2⟩
            · rw [if_neg hbu]
              obtain ⟨k, hk⟩ := jsValidateSessionToken_mem hv
              exact rejoinSuccess_registryInv hk h1 h2
  | genDeviceCode sock draw =>
    simp only [step, onGenDeviceCode]
    split
    · exact ⟨h1, h2⟩
    · split
      · exact ⟨h1, h2⟩
      · rename_i user heqUser
        split
        · exact ⟨h1, h2⟩
        · rename_i regUser hr
          have hk := alGet_mem hr
          have hkid : regUser.id = user.id := h1 (user.id, regUser) hk
          rw [show user.id = regUser.id from hkid.symm]
          exact ⟨(invPair_alSet regUser
                    { regUser with deviceCode := some (generateUniqueDeviceCode
                        draw (List.map (fun p => p.2) st.registeredUsers)) }
                    user.id hk h1 h2 rfl rfl).1,
                 (invPair_alSet regUser
                    { regUser with deviceCode := some (generateUniqueDeviceCode
                        draw (List.map (fun p => p.2) st.registeredUsers)) }
                    user.id hk h1 h2 rfl rfl).2⟩
  | banUser sock p =>
    simp only [step, onBanUser]
    repeat' split
    all_goals try exact ⟨h1, h2⟩
    all_goals simp only [banCascade]
    all_goals exact ⟨(invPair_alDel h1 h2).1, (invPair_alDel h1 h2).2⟩
  | setNickname sock p ou ot oh now =>
    simp only [step, onSetNickname]
    by_cases hip : st.bannedIPs.contains (socketIpOf st sock) = true
    · rw [if_pos hip]
      exact ⟨h1, h2⟩
    · rw [if_neg hip]
      by_cases hfp : socketFpBanned st sock = true
      · rw [if_pos hfp]
        exact ⟨h1, h2⟩
      · rw [if_neg hfp]
        split
        · split
          · split
            · rename_i s hstr hshape
              cases hv : validateDeviceCode (asciiUpper s) st with
              | none =>
                apply registrationInvPreserved <;> assumption
              | some dcUser =>
                simp only [deviceLoginBranch]
                by_cases hbu : st.bannedUsers.contains dcUser.id = true
                · rw [if_pos hbu]
                  exact ⟨h1, h2⟩
                · rw [if_neg hbu]
                  obtain ⟨k, hk⟩ := validateDeviceCode_mem hv
                  exact ⟨(invPair_alSet dcUser { dcUser with deviceCode := none }
                            k hk h1 h2 rfl rfl).1,
                         (invPair_alSet dcUser { dcUser with deviceCode := none }
                            k hk h1 h2 rfl rfl).2⟩
            · apply registrationInvPreserved <;> assumption
          · exact ⟨h1, h2⟩
        · exact ⟨h1, h2⟩

theorem registryInv_run : ∀ (es : List Event) (st : ServerState),
    RegistryInv st → RegistryInv (run st es) := by
  intro es
  induction es with
  | nil => intro st h; exact h
  | cons e t ih =>
    intro st h
    exact ih _ (registryInv_step st e h)

/-- C2 amended: in every reachable state, the identity holding
`isAdmin = true` (if any) is the one recorded in `adminId`, so at most one
registered identity is admin at any time; admin status is granted only at
registration of "mefisto" while `adminId` is unset, and `adminId` can be
reset by `/admin/clear-users`, which is how a second identity can later
become admin in the same process lifetime. -/
theorem c2_admin_unique_amended :
    ∀ st : ServerState, Reachable st →
    (∀ p ∈ st.registeredUsers, p.2.isAdmin = true → st.adminId = some p.1) ∧
    (∀ p ∈ st.registeredUsers, ∀ q ∈ st.registeredUsers,
      p.2.isAdmin = true → q.2.isAdmin = true → p.1 = q.1) := by
  intro st hr
  obtain ⟨es, hes⟩ := hr
  have hinit : RegistryInv initialState := by
    constructor
    · intro p hp
      simp [initialState] at hp
    · intro p hp
      simp [initialState] at hp
  have hinv : RegistryInv st := hes ▸ registryInv_run es initialState hinit
  refine ⟨hinv.2, ?_⟩
  intro p hp q hq hpa hqa
  have ha := hinv.2 p hp hpa
  have hb := hinv.2 q hq hqa
  rw [ha] at hb
  exact Option.some.inj hb

/-- Witness for the C2 amended theorem at the concrete reachable state
after registering mefisto. -/
theorem c2_admin_unique_amended_witness : c2stateA.adminId = some "uA" :=
  (c2_admin_unique_amended c2stateA ⟨c2traceA, rfl⟩).1
    ("uA", { id := "uA", nickname := "mefisto", avatarHue := 0,
             isAdmin := true, ip := "ip1", sessionToken := "t1",
             deviceCode := none })
    (by decide) (by decide)

theorem stepNoThrowOther : ∀ (st : ServerState) (e : Event),
    eventKindCanThrow e = false → (step st e).threw = false := by
  intro st e he
  cases e with
  | setNickname sock p ou ot oh now => simp [eventKindCanThrow] at he
  | message sock p om now => simp [eventKindCanThrow] at he
  | connect sock ip ct ot =>
    simp only [step, onConnect]
    repeat' split
    all_goals rfl
  | setFingerprint sock p =>
    simp only [step, onSetFingerprint]
    repeat' split
    all_goals rfl
  | rejoin sock p ot now =>
    simp only [step, onRejoin, rejoinSuccess]
    repeat' split
    all_goals rfl
  | genDeviceCode sock draw =>
    simp only [step, onGenDeviceCode]
    repeat' split
    all_goals rfl
  | banUser sock p =>
    simp only [step, onBanUser, banCascade]
    repeat' split
    all_goals rfl
  | disconnect sock =>
    simp only [step, onDisconnect]
    repeat' split
    all_goals rfl
  | clearUsers k =>
    simp only [step, onClearUsers]
    repeat' split
    all_goals rfl
  | clearBans k =>
    simp only [step, onClearBans]
    repeat' split
    all_goals rfl
  | unbanIp k ip =>
    simp only [step, onUnbanIp]
    repeat' split
    all_goals rfl

theorem setNicknameStrNoThrow : ∀ (st : ServerState) (sock : Nat)
    (s ou ot : String) (oh : Nat) (now : Int),
    (step st (.setNickname sock (.str s) ou ot oh now)).threw = false := by
  intro st sock s ou ot oh now
  simp only [step, onSetNickname, deviceLoginBranch, registrationBranch]
  repeat' split
  all_goals rfl

theorem messageStrNoThrow : ∀ (st : ServerState) (sock : Nat)
    (s om : String) (now : Int),
    (step st (.message sock (.str s) om now)).threw = false := by
  intro st sock s om now
  simp only [step, onMessage, messageGates]
  repeat' split
  all_goals rfl

theorem setNicknameFalsyNoThrow : ∀ (st : ServerState) (sock : Nat)
    (p : JSValue) (ou ot : String) (oh : Nat) (now : Int),
    jsTruthy p = false →
    (step st (.setNickname sock p ou ot oh now)).threw = false := by
  intro st sock p ou ot oh now hf
  simp only [step, onSetNickname]
  repeat' split
  all_goals first | rfl | simp_all [deviceLoginBranch, registrationBranch]

theorem messageFalsyNoThrow : ∀ (st : ServerState) (sock : Nat)
    (p : JSValue) (om : String) (now : Int),
    jsTruthy p = false →
    (step st (.message sock p om now)).threw = false := by
  intro st sock p om now hf
  simp only [step, onMessage, messageGates]
  repeat' split
  all_goals first | rfl | simp_all

theorem setNicknameThrowClean : ∀ (st : ServerState) (sock : Nat)
    (p : JSValue) (ou ot : String) (oh : Nat) (now : Int),
    (step st (.setNickname sock p ou ot oh now)).threw = true →
    (step st (.setNickname sock p ou ot oh now)).state = st ∧
    (step st (.setNickname sock p ou ot oh now)).out = [] := by
  intro st sock p ou ot oh now h
  simp only [step, onSetNickname, deviceLoginBranch, registrationBranch]
    at h ⊢
  repeat' split at h
  all_goals simp_all

theorem messageThrowClean : ∀ (st : ServerState) (sock : Nat)
    (p : JSValue) (om : String) (now : Int),
    (step st (.message sock p om now)).threw = true →
    (step st (.message sock p om now)).state = st ∧
    (step st (.message sock p om now)).out = [] := by
  intro st sock p om now h
  simp only [step, onMessage, messageGates] at h ⊢
  repeat' split at h
  all_goals simp_all

theorem foldrBanOuts_noError (conns : List Nat) :
    ∀ socks : List Nat,
    (socks.foldr (fun ss acc =>
      (if conns.contains ss = true then
         [Out.emitTo ss .banned, Out.disconnectSock ss]
       else []) ++ acc) []).any isErrOut = false := by
  intro socks
  induction socks with
  | nil => rfl
  | cons ss t ih =>
    simp only [List.foldr_cons, List.any_append, ih, Bool.or_false]
    by_cases hconn : conns.contains ss = true
    · rw [if_pos hconn]
      rfl
    · rw [if_neg hconn]
      rfl

theorem banCascade_noError (st : ServerState) (t : String) (d : RegUser) :
    hasErrorOut (banCascade st t d).out = false := by
  simp only [banCascade, hasErrorOut, List.any_append]
  have hA : ((st.messages.filter (fun m => m.userId = t)).reverse.map
      (fun m => Out.broadcast (.messageDeleted m.id))).any isErrOut
      = false := by
    rw [List.any_eq_false]
    intro x hx
    rcases List.mem_map.mp hx with ⟨m, _, hm⟩
    subst hm
    simp [isErrOut]
  have hC : ([Out.broadcast (.userLeft d.nickname
      st.allConnections.length true)]).any isErrOut = false := rfl
  rcases halg : alGet st.userSessions t with _ | socks
  · rw [hA, hC]
    rfl
  · rw [hA, hC, foldrBanOuts_noError st.allConnections socks]
    rfl

set_option maxHeartbeats 2000000 in
theorem stepErrorNoChange : ∀ (st : ServerState) (e : Event),
    hasErrorOut (step st e).out = true → (step st e).state = st := by
  intro st e h
  cases e with
  | connect sock ip ct ot =>
    simp only [step, onConnect] at h ⊢
    repeat' split at h
    all_goals simp_all [hasErrorOut, isErrOut]
  | setFingerprint sock p =>
    simp only [step, onSetFingerprint] at h ⊢
    repeat' split at h
    all_goals simp_all [hasErrorOut, isErrOut]
  | setNickname sock p ou ot oh now =>
    simp only [step, onSetNickname, deviceLoginBranch, registrationBranch]
      at h ⊢
    repeat' split at h
    all_goals try simp_all [hasErrorOut, isErrOut]
    all_goals split
    all_goals rfl
  | rejoin sock p ot now =>
    simp only [step, onRejoin, rejoinSuccess] at h ⊢
    repeat' split at h
    all_goals simp_all [hasErrorOut, isErrOut]
  | genDeviceCode sock draw =>
    simp only [step, onGenDeviceCode] at h ⊢
    repeat' split at h
    all_goals simp_all [hasErrorOut, isErrOut]
  | message sock p om now =>
    simp only [step, onMessage, messageGates] at h ⊢
    repeat' split at h
    all_goals try simp_all [hasErrorOut, isErrOut]
    all_goals split
    all_goals rfl
  | banUser sock p =>
    simp only [step, onBanUser] at h ⊢
    repeat' split at h
    all_goals try simp_all [isErrOut]
    all_goals (rw [banCascade_noError] at h; cases h)
  | disconnect sock =>
    simp only [step, onDisconnect] at h ⊢
    repeat' split at h
    all_goals simp_all [hasErrorOut, isErrOut]
  | clearUsers k =>
    simp only [step, onClearUsers] at h ⊢
    repeat' split at h
    all_goals simp_all [hasErrorOut, isErrOut]
  | clearBans k =>
    simp only [step, onClearBans] at h ⊢
    repeat' split at h
    all_goals simp_all [hasErrorOut, isErrOut]
  | unbanIp k ip =>
    simp only [step, onUnbanIp] at h ⊢
    repeat' split at h
    all_goals simp_all [hasErrorOut, isErrOut]

/-- C4 amended: handlers other than `setNickname` and `message` never
throw for any payload; `setNickname` and `message` never throw on string
or falsy payloads; when they do throw (truthy non-string payloads), the
state is unchanged and nothing was emitted; and whenever any handler
reports an `error`, the shared state is exactly as before the event
(validation fully precedes mutation). -/
theorem c4_handlers_amended :
    (∀ (st : ServerState) (e : Event), eventKindCanThrow e = false →
      (step st e).threw = false) ∧
    (∀ (st : ServerState) (sock : Nat) (s ou ot : String) (oh : Nat)
       (now : Int),
      (step st (.setNickname sock (.str s) ou ot oh now)).threw = false) ∧
    (∀ (st : ServerState) (sock : Nat) (s om : String) (now : Int),
      (step st (.message sock (.str s) om now)).threw = false) ∧
    (∀ (st : ServerState) (sock : Nat) (p : JSValue) (ou ot : String)
       (oh : Nat) (now : Int), jsTruthy p = false →
      (step st (.setNickname sock p ou ot oh now)).threw = false) ∧
    (∀ (st : ServerState) (sock : Nat) (p : JSValue) (om : String)
       (now : Int), jsTruthy p = false →
      (step st (.message sock p om now)).threw = false) ∧
    (∀ (st : ServerState) (sock : Nat) (p : JSValue) (ou ot : String)
       (oh : Nat) (now : Int),
      (step st (.setNickname sock p ou ot oh now)).threw = true →
      (step st (.setNickname sock p ou ot oh now)).state = st ∧
      (step st (.setNickname sock p ou ot oh now)).out = []) ∧
    (∀ (st : ServerState) (sock : Nat) (p : JSValue) (om : String)
       (now : Int),
      (step st (.message sock p om now)).threw = true →
      (step st (.message sock p om now)).state = st ∧
      (step st (.message sock p om now)).out = []) ∧
    (∀ (st : ServerState) (e : Event),
      hasErrorOut (step st e).out = true → (step st e).state = st) :=
  ⟨stepNoThrowOther, setNicknameStrNoThrow, messageStrNoThrow,
   setNicknameFalsyNoThrow, messageFalsyNoThrow, setNicknameThrowClean,
   messageThrowClean, stepErrorNoChange⟩

/-- Witness for the C4 amended theorem: a concrete rejected `message`
(unattributed sender) leaves the state unchanged. -/
theorem c4_handlers_amended_witness :
    (step c4demoState (.message 1 (.str "hi") "m" 0)).state = c4demoState :=
  c4_handlers_amended.2.2.2.2.2.2.2 c4demoState (.message 1 (.str "hi") "m" 0) (by decide)

theorem foldl_alSet_nodup {α β : Type} [DecidableEq α] :
    ∀ (l acc : List (α × β)), (l.map Prod.fst).Nodup →
    (∀ p ∈ l, alHas acc p.1 = false) →
    l.foldl (fun a p => alSet a p.1 p.2) acc = acc ++ l := by
  intro l
  induction l with
  | nil =>
    intro acc _ _
    simp
  | cons q t ih =>
    intro acc hnd hfr
    simp only [List.foldl_cons]
    have hq : alHas acc q.1 = false := hfr q (by simp)
    have hset : alSet acc q.1 q.2 = acc ++ [q] := by
      unfold alSet
      rw [if_neg (by rw [show (acc.any fun p => p.1 = q.1) = alHas acc q.1
            from rfl, hq]; exact Bool.false_ne_true)]
    rw [hset]
    have hnd2 : (t.map Prod.fst).Nodup := by
      simpa using hnd.of_cons
    have hfr2 : ∀ p ∈ t, alHas (acc ++ [q]) p.1 = false := by
      intro p hp
      have hne : p.1 ≠ q.1 := by
        intro hcontra
        have : q.1 ∈ t.map Prod.fst := by
          rw [← hcontra]
          exact List.mem_map.mpr ⟨p, hp, rfl⟩
        rw [List.map_cons] at hnd
        exact (List.nodup_cons.mp hnd).1 this
      have hp2 : alHas acc p.1 = false := hfr p (by simp [hp])
      unfold alHas at hp2 ⊢
      rw [List.any_append, hp2]
      simp only [List.any_cons, List.any_nil, Bool.or_false, Bool.false_or,
        decide_eq_false_iff_not]
      exact fun hc => hne hc.symm
    rw [ih (acc ++ [q]) hnd2 hfr2]
    simp

theorem foldl_setAdd_nodup {α : Type} [DecidableEq α] :
    ∀ (l acc : List α), l.Nodup → (∀ a ∈ l, acc.contains a = false) →
    l.foldl setAdd acc = acc ++ l := by
  intro l
  induction l with
  | nil =>
    intro acc _ _
    simp
  | cons q t ih =>
    intro acc hnd hfr
    simp only [List.foldl_cons]
    have hset : setAdd acc q = acc ++ [q] := by
      unfold setAdd
      rw [if_neg (by rw [hfr q (by simp)]; exact Bool.false_ne_true)]
    rw [hset]
    have hfr2 : ∀ a ∈ t, (acc ++ [q]).contains a = false := by
      intro a ha
      have hne : a ≠ q := by
        intro hcontra
        subst hcontra
        exact (List.nodup_cons.mp hnd).1 ha
      have ha2 : acc.contains a = false := hfr a (by simp [ha])
      rw [Bool.eq_false_iff]
      intro hcontra
      rw [List.elem_iff] at hcontra
      rcases List.mem_append.mp hcontra with hmem | hmem
      · have hx : acc.contains a = true := List.elem_iff.mpr hmem
        rw [ha2] at hx
        cases hx
      · simp at hmem
        exact hne hmem
    rw [ih (acc ++ [q]) (List.nodup_cons.mp hnd).2 hfr2]
    simp

/-- C9 amended: the snapshot round trip from a state with duplicate-free
registry keys and ban sets restores the registered identities, token
index, ban sets, fingerprint map and adminId bit-for-bit, but of the
messages only the most recent 1000 survive `saveData`, and of those only
the ones strictly newer than the retention horizon at load time. -/
theorem c9_roundtrip_amended : ∀ (st : ServerState) (saveNow loadNow : Int),
    (st.registeredUsers.map Prod.fst).Nodup →
    (st.sessionTokens.map Prod.fst).Nodup →
    st.bannedUsers.Nodup →
    st.bannedNicknames.Nodup →
    st.bannedIPs.Nodup →
    st.bannedFingerprints.Nodup →
    (st.userFingerprints.map Prod.fst).Nodup →
    st.adminId ≠ some "" →
    loadData (saveData st saveNow) loadNow =
      { initialState with
          registeredUsers := st.registeredUsers,
          sessionTokens := st.sessionTokens,
          messages := (st.messages.drop (st.messages.length - 1000)).filter
            (fun m => loadNow - RETENTION < m.timestamp),
          bannedUsers := st.bannedUsers,
          bannedNicknames := st.bannedNicknames,
          bannedIPs := st.bannedIPs,
          bannedFingerprints := st.bannedFingerprints,
          userFingerprints := st.userFingerprints,
          adminId := st.adminId } := by
  intro st saveNow loadNow hr hs hbu hbn hbi hbf huf hadm
  unfold loadData saveData
  have hone : ∀ (l : List (String × RegUser)), (l.map Prod.fst).Nodup →
      l.foldl (fun a p => alSet a p.1 p.2) ([] : List (String × RegUser)) = l := by
    intro l hnd
    rw [foldl_alSet_nodup l [] hnd (fun p _ => rfl)]
    simp
  have htwo : ∀ (l : List (String × String)), (l.map Prod.fst).Nodup →
      l.foldl (fun a p => alSet a p.1 p.2) ([] : List (String × String)) = l := by
    intro l hnd
    rw [foldl_alSet_nodup l [] hnd (fun p _ => rfl)]
    simp
  have hthree : ∀ (l : List String), l.Nodup →
      l.foldl setAdd ([] : List String) = l := by
    intro l hnd
    rw [foldl_setAdd_nodup l [] hnd (fun a _ => rfl)]
    simp
  have hadm2 : (match st.adminId with
      | some a => if a ≠ "" then some a else none
      | none => none) = st.adminId := by
    cases ha : st.adminId with
    | none => rfl
    | some a =>
      show (if a ≠ "" then some a else none) = some a
      rw [if_pos]
      intro hcontra
      subst hcontra
      exact hadm ha
  simp only [hone st.registeredUsers hr, htwo st.sessionTokens hs,
    hthree st.bannedUsers hbu, hthree st.bannedNicknames hbn,
    hthree st.bannedIPs hbi, hthree st.bannedFingerprints hbf,
    htwo st.userFingerprints huf, hadm2]

theorem c9Text_alternates (k : Nat) : c9Text (k + 1) ≠ c9Text k := by
  unfold c9Text
  rcases Nat.mod_two_eq_zero_or_one k with h | h
  · have h1 : (k + 1) % 2 = 1 := by omega
    rw [h, h1]
    decide
  · have h1 : (k + 1) % 2 = 0 := by omega
    rw [h, h1]
    decide

theorem c9_step_accepts (st : ServerState) (j : Nat)
    (hC : c9Cond st)
    (hlast : ¬ alGet st.userLastMessages "uA" = some (c9Text j)) :
    (step st (.message 1 (.str (c9Text j)) (toString j) 0)).state =
      { st with
          userLastMessages := alSet st.userLastMessages "uA" (c9Text j),
          messages := st.messages ++ [c9Msg j] } := by
  obtain ⟨h1, h2, h3⟩ := hC
  have htext : c9Text j = "a" ∨ c9Text j = "b" := by
    unfold c9Text
    split
    · exact Or.inl rfl
    · exact Or.inr rfl
  unfold c9Msg
  rcases htext with ht | ht <;>
    rw [ht] at hlast ⊢ <;>
    simp only [step, onMessage, h1, h2, h3, messageGates,
      show jsTrim "a" = "a" from rfl, show jsTrim "b" = "b" from rfl] <;>
    rw [if_neg (by decide), if_neg (by decide), if_neg (by decide),
        if_neg (by decide), if_neg hlast, if_neg (by decide),
        if_neg (by decide)] <;>
    rfl

theorem c9msgEvents_succ (k n : Nat) :
    c9msgEvents k (n + 1) =
      Event.message 1 (.str (c9Text k)) (toString k) 0 :: c9msgEvents (k + 1) n := by
  unfold c9msgEvents
  rw [List.range_succ_eq_map, List.map_cons, List.map_map]
  congr 1
  refine List.map_congr_left ?_
  intro i _
  have hki : k + (i + 1) = (k + 1) + i := by omega
  simp [Nat.succ_eq_add_one, Function.comp, hki]

theorem c9MsgList_succ (k n : Nat) :
    c9MsgList k (n + 1) = c9Msg k :: c9MsgList (k + 1) n := by
  unfold c9MsgList
  rw [List.range_succ_eq_map, List.map_cons, List.map_map]
  congr 1
  refine List.map_congr_left ?_
  intro i _
  have hki : k + (i + 1) = (k + 1) + i := by omega
  simp [Nat.succ_eq_add_one, Function.comp, hki]

theorem c9_run_messages (n : Nat) : ∀ (k : Nat) (st : ServerState),
    c9Cond st →
    ¬ alGet st.userLastMessages "uA" = some (c9Text k) →
    (run st (c9msgEvents k n)).messages = st.messages ++ c9MsgList k n ∧
    c9Cond (run st (c9msgEvents k n)) := by
  induction n with
  | zero =>
    intro k st hC _
    refine ⟨?_, ?_⟩
    · simp [c9msgEvents, c9MsgList, run]
    · simpa [c9msgEvents, run] using hC
  | succ n ih =>
    intro k st hC hlast
    rw [c9msgEvents_succ]
    have hstep := c9_step_accepts st k hC hlast
    have hrun : run st (Event.message 1 (.str (c9Text k)) (toString k) 0 ::
        c9msgEvents (k + 1) n) =
        run { st with
          userLastMessages := alSet st.userLastMessages "uA" (c9Text k),
          messages := st.messages ++ [c9Msg k] } (c9msgEvents (k + 1) n) := by
      show run (step st (Event.message 1 (.str (c9Text k)) (toString k) 0)).state
          (c9msgEvents (k + 1) n) = _
      rw [hstep]
    have hC1 : c9Cond { st with
        userLastMessages := alSet st.userLastMessages "uA" (c9Text k),
        messages := st.messages ++ [c9Msg k] } := hC
    have hlast1 : ¬ alGet (alSet st.userLastMessages "uA" (c9Text k)) "uA" =
        some (c9Text (k + 1)) := by
      rw [alGet_alSet_self]
      intro h
      exact c9Text_alternates k (Option.some.inj h).symm
    obtain ⟨ihm, ihc⟩ := ih (k + 1) { st with
        userLastMessages := alSet st.userLastMessages "uA" (c9Text k),
        messages := st.messages ++ [c9Msg k] } hC1 hlast1
    refine ⟨?_, ?_⟩
    · rw [hrun, ihm, c9MsgList_succ]
      show st.messages ++ [c9Msg k] ++ c9MsgList (k + 1) n = _
      rw [List.append_assoc]
      rfl
    · rw [hrun]
      exact ihc

theorem c9_roundtrip_amended_witness :
    loadData (saveData c9WitState 5) 7 =
      { initialState with
          registeredUsers := c9WitState.registeredUsers,
          sessionTokens := c9WitState.sessionTokens,
          messages := (c9WitState.messages.drop
              (c9WitState.messages.length - 1000)).filter
            (fun m => 7 - RETENTION < m.timestamp),
          bannedUsers := c9WitState.bannedUsers,
          bannedNicknames := c9WitState.bannedNicknames,
          bannedIPs := c9WitState.bannedIPs,
          bannedFingerprints := c9WitState.bannedFingerprints,
          userFingerprints := c9WitState.userFingerprints,
          adminId := c9WitState.adminId } :=
  c9_roundtrip_amended c9WitState 5 7 (by decide) (by decide) (by decide)
    (by decide) (by decide) (by decide) (by decide) (by decide)

theorem loadData_saveData_messages (st : ServerState) (n1 n2 : Int) :
    (loadData (saveData st n1) n2).messages =
      (st.messages.drop (st.messages.length - 1000)).filter
        (fun m => n2 - RETENTION < m.timestamp) := rfl

/-- C9 counterexample: a reachable state holds 1001 messages, every one
of them strictly newer than the retention horizon at load time, yet the
snapshot round trip returns only 1000 of them — `saveData` slices the
log to its last 1000 entries, so the claim that exactly the messages past
the retention horizon are dropped is false. -/
theorem c9_thousand_cap_counterexample :
    Reachable c9state ∧
    c9state.messages.length = 1001 ∧
    c9state.messages.all (fun m => (0:Int) - RETENTION < m.timestamp) = true ∧
    (loadData (saveData c9state 0) 0).messages.length = 1000 := by
  have hcond : c9Cond c9Base := by
    refine ⟨?_, ?_, ?_⟩ <;> decide
  have hlast0 : ¬ alGet c9Base.userLastMessages "uA" = some (c9Text 0) := by
    decide
  obtain ⟨hm, _⟩ := c9_run_messages 1001 0 c9Base hcond hlast0
  have hbase : c9Base.messages = ([] : List Message) := by decide
  have hmsgs : c9state.messages = c9MsgList 0 1001 := by
    show (run c9Base (c9msgEvents 0 1001)).messages = _
    rw [hm, hbase]
    rfl
  have hlen : c9state.messages.length = 1001 := by
    rw [hmsgs]
    simp [c9MsgList]
  have hts : ∀ m ∈ c9MsgList 0 1001, (0:Int) - RETENTION < m.timestamp := by
    intro m hmem
    unfold c9MsgList at hmem
    rw [List.mem_map] at hmem
    obtain ⟨i, _, hbi⟩ := hmem
    rw [← hbi]
    show (0:Int) - RETENTION < (0:Int)
    decide
  refine ⟨⟨[.connect 1 "ip" none "", .setNickname 1 (.str "alice") "uA" "t1" 0 0]
      ++ c9msgEvents 0 1001, ?_⟩, hlen, ?_, ?_⟩
  · rw [run_append]
    rfl
  · rw [List.all_eq_true]
    intro m hmem
    rw [hmsgs] at hmem
    exact decide_eq_true (hts m hmem)
  · have hall : ∀ a ∈ (c9MsgList 0 1001).drop (1001 - 1000),
        (fun m => decide ((0:Int) - RETENTION < m.timestamp)) a = true := by
      intro a ha
      exact decide_eq_true (hts a (List.mem_of_mem_drop ha))
    rw [loadData_saveData_messages c9state 0 0, hlen, hmsgs,
      List.filter_eq_self.mpr hall, List.length_drop]
    simp [c9MsgList]
